import Mathlib

/-!
# Employee directory management: directory view and conditional forms

A shallow embedding of

* `src/frontend/src/components/userManagement/usermanagement.js`
  (list normalisation, archive update of the cache, derived visible rows, opening of
  the edit modal, role options),
* `src/frontend/src/components/userManagement/modals/addEmployeeModal.js`
  (create-flow validation, payload and submission),
* `src/frontend/src/components/userManagement/modals/editEmployeeModal.js`
  (edit-flow prefill, validation, payload and submission),
* `src/frontend/src/components/sidebar/sidebar.js` and
  `src/frontend/src/components/dashboard/dashboard.js`
  (reading of the stored `sidebarCollapsed` preference and its reconciliation by
  the storage listener and the poll tick).

Typing of the JavaScript values.  A field that the code only copies, tests for
truthiness or compares with `===` holds an arbitrary primitive value (`JSVal`).
A field on which the code calls string methods behind `?.` or `||`
(`fullName`, `email`, `userRole`, `system`, `phoneNumber`, `username`) holds a
string or is absent (`Option String`, where `none` stands for both `undefined`
and `null`: the operations used on these fields, `?.`, `||` and `===` against a
string, do not tell the two apart).  Values of text inputs and selects are
strings.

The runtime is modelled where the code depends on it: `toLowerCase` is a parameter,
`JSON.parse` is a scanner for the JSON grammar, and the `fetch` call is a function
from the request to its outcome, which covers a rejected promise, a response that is
ok, and a response that is not ok with every outcome of decoding its body (not JSON,
`null`, or a value with or without a `detail` of any type).  The `required`
attributes and the role options of the JSX are embedded as the lists of the names
and values that carry them.
-/

set_option autoImplicit false

namespace Directory

/-! ## JavaScript values -/

/-- A primitive JavaScript value, as found in a decoded JSON payload. Numbers are
the integer-valued ones (`NaN` does not occur in JSON). -/
inductive JSVal where
  | undefined
  | null
  | bool (b : Bool)
  | num (n : Int)
  | str (s : String)
  deriving DecidableEq, Repr

namespace JSVal

/-- The `ToBoolean` conversion: what `v ? a : b`, `!v` and `v || w` test. -/
def truthy : JSVal → Bool
  | undefined => false
  | null => false
  | bool b => b
  | num n => n != 0
  | str s => s != ""

/-- Strict equality `a === b`: same type and same value. -/
def strictEq : JSVal → JSVal → Bool
  | undefined, undefined => true
  | null, null => true
  | bool a, bool b => a == b
  | num a, num b => a == b
  | str a, str b => a == b
  | _, _ => false

end JSVal

/-- The value of `s || d` for a string-or-absent `s` and a string `d`: `d` when `s`
is absent or the empty string (both falsy), else `s`. -/
def orDefault (s : Option String) (d : String) : String :=
  match s with
  | none => d
  | some v => if v = "" then d else v

/-- The method `String.prototype.includes`: `needle` occurs in `hay` as a contiguous
run. -/
def includes (hay needle : String) : Bool :=
  decide (needle.data <:+: hay.data)

/-! ## Records -/

/-- One element of the payload of `GET /users/list-users`. -/
structure RemoteUser where
  userID : JSVal
  fullName : Option String
  username : Option String
  email : Option String
  userRole : Option String
  system : Option String
  isDisabled : JSVal
  phoneNumber : Option String
  deriving DecidableEq, Repr

/-- The normalised record held in the `employees` state (the cache). -/
structure Employee where
  id : JSVal
  name : Option String
  username : Option String
  email : Option String
  role : Option String
  system : String
  status : String
  phone : String
  deriving DecidableEq, Repr

/-! ## usermanagement.js -/

/-- The callback of `apiData.map(...)` in `fetchEmployees` (lines 106-115). -/
def mapUser (user : RemoteUser) : Employee :=
  { id := user.userID
    name := user.fullName
    username := user.username
    email := user.email
    role := user.userRole
    system := orDefault user.system "N/A"
    status := if user.isDisabled.truthy then "Inactive" else "Active"
    phone := orDefault user.phoneNumber "N/A" }

/-- The list `mappedEmployees` of `fetchEmployees`, which becomes the cache. -/
def mappedEmployees (apiData : List RemoteUser) : List Employee :=
  apiData.map mapUser

/-- The updater passed to `setEmployees` in `handleDeleteEmployee` (lines 165-167),
run after the disable call succeeded. -/
def archiveUpdate (prev : List Employee) (empId : JSVal) : List Employee :=
  prev.map (fun emp => if emp.id.strictEq empId then { emp with status := "Inactive" } else emp)

/-- The value of `v?.toLowerCase().includes(searchTerm.toLowerCase())`: `none`
(JavaScript `undefined`) when `v` is absent, else the boolean. The case mapping of
the runtime is the parameter `toLowerCase`. -/
def optMatch (toLowerCase : String → String) (v : Option String) (searchTerm : String) :
    Option Bool :=
  match v with
  | none => none
  | some s => some (includes (toLowerCase s) (toLowerCase searchTerm))

/-- Truthiness of `nameMatch || emailMatch`, where each side is a boolean or
`undefined`. -/
def orTruthy (a b : Option Bool) : Bool :=
  match a with
  | some true => true
  | _ => match b with
    | some true => true
    | _ => false

/-- The callback of `employees.filter(...)` (lines 175-181), as the truthiness of
the value it returns. -/
def rowMatches (toLowerCase : String → String) (searchTerm roleFilter systemFilter : String)
    (emp : Employee) : Bool :=
  let nameMatch := optMatch toLowerCase emp.name searchTerm
  let emailMatch := optMatch toLowerCase emp.email searchTerm
  let roleMatch := if roleFilter ≠ "" then decide (emp.role = some roleFilter) else true
  let systemMatch := if systemFilter ≠ "" then decide (emp.system = systemFilter) else true
  orTruthy nameMatch emailMatch && roleMatch && systemMatch

/-- The derived list `filteredData`: the rows shown by the table. -/
def filteredData (toLowerCase : String → String) (employees : List Employee)
    (searchTerm roleFilter systemFilter : String) : List Employee :=
  employees.filter (rowMatches toLowerCase searchTerm roleFilter systemFilter)

/-! ## Form state shared by the two modals -/

/-- The `formData` state of `AddEmployeeModal` and of `EditEmployeeModal`: the
values of the text inputs and selects. -/
structure FormData where
  firstName : String
  middleName : String
  suffix : String
  lastName : String
  username : String
  email : String
  phone : String
  role : String
  system : String
  password : String
  confirmPassword : String
  pin : String
  deriving DecidableEq, Repr

/-- The three error states set by `validateForm`, with the boolean it returns. -/
structure Validation where
  isValid : Bool
  passwordError : String
  confirmPasswordError : String
  pinError : String
  deriving DecidableEq, Repr

/-- The entries of a `FormData` request body, as (name, value) pairs in the order of
the `append` calls. -/
abbrev Payload := List (String × String)

/-- The number of UTF-16 code units of one character. -/
def codeUnits (c : Char) : Nat :=
  if c.toNat < 65536 then 1 else 2

/-- The property `s.length` of a JavaScript string: its number of UTF-16 code
units. -/
def jsLength (s : String) : Nat :=
  (s.data.map codeUnits).sum

/-- Matching `\d{n}$` at the current position: exactly `n` characters remain and
each is one of `0`..`9`. -/
def matchDigits : Nat → List Char → Bool
  | 0, [] => true
  | 0, _ :: _ => false
  | _ + 1, [] => false
  | n + 1, c :: cs => c.isDigit && matchDigits n cs

/-- The test `/^\d{4}$/.test(s)`. -/
def testPin (s : String) : Bool :=
  matchDigits 4 s.data

/-- The condition `formData.role === 'manager' && formData.system === 'POS'`. -/
def isPosManager (formData : FormData) : Bool :=
  formData.role == "manager" && formData.system == "POS"

/-- The state of the error fields after the three resets at the top of
`validateForm`, with `isValid = true`. -/
def Validation.init : Validation :=
  { isValid := true, passwordError := "", confirmPasswordError := "", pinError := "" }

/-! ## addEmployeeModal.js -/

namespace AddEmployeeModal

/-- The password step of `validateForm` (lines 51-58). -/
def passwordStep (formData : FormData) (v : Validation) : Validation :=
  if formData.password = "" ∨ jsLength formData.password < 12 then
    { v with passwordError := "Password must be at least 12 characters.", isValid := false }
  else if formData.password ≠ formData.confirmPassword then
    { v with confirmPasswordError := "Passwords do not match!", isValid := false }
  else v

/-- The PIN step of `validateForm` (lines 60-66). -/
def pinStep (formData : FormData) (v : Validation) : Validation :=
  if isPosManager formData then
    if formData.pin = "" ∨ testPin formData.pin = false then
      { v with pinError := "A 4-digit PIN is required for POS Managers.", isValid := false }
    else v
  else v

/-- The function `validateForm` of the create flow (lines 45-69). -/
def validateForm (formData : FormData) : Validation :=
  pinStep formData (passwordStep formData Validation.init)

/-- The body `formDataPayload` built by `handleSubmit` (lines 85-100). -/
def formDataPayload (formData : FormData) : Payload :=
  [("firstName", formData.firstName),
   ("middleName", formData.middleName),
   ("lastName", formData.lastName),
   ("suffix", formData.suffix),
   ("username", formData.username),
   ("password", formData.password),
   ("email", formData.email),
   ("phoneNumber", formData.phone),
   ("userRole", formData.role),
   ("system", formData.system)]
  ++ (if isPosManager formData then [("pin", formData.pin)] else [])

end AddEmployeeModal

/-! ## editEmployeeModal.js -/

namespace EditEmployeeModal

/-- The password step of `validateForm` (lines 69-78). -/
def passwordStep (formData : FormData) (v : Validation) : Validation :=
  if formData.password ≠ "" then
    if jsLength formData.password < 12 then
      { v with passwordError := "New password must be at least 12 characters.", isValid := false }
    else if formData.password ≠ formData.confirmPassword then
      { v with confirmPasswordError := "Passwords do not match!", isValid := false }
    else v
  else v

/-- The PIN step of `validateForm` (lines 80-86). -/
def pinStep (formData : FormData) (v : Validation) : Validation :=
  if isPosManager formData ∧ formData.pin ≠ "" then
    if testPin formData.pin = false then
      { v with pinError := "New PIN must be 4 digits.", isValid := false }
    else v
  else v

/-- The function `validateForm` of the edit flow (lines 63-89). -/
def validateForm (formData : FormData) : Validation :=
  pinStep formData (passwordStep formData Validation.init)

/-- The body `formDataPayload` built by `handleSubmit` (lines 110-129). -/
def formDataPayload (formData : FormData) : Payload :=
  [("firstName", formData.firstName),
   ("middleName", formData.middleName),
   ("lastName", formData.lastName),
   ("suffix", formData.suffix),
   ("email", formData.email),
   ("phoneNumber", formData.phone),
   ("userRole", formData.role),
   ("system", formData.system)]
  ++ (if formData.password ≠ "" then [("password", formData.password)] else [])
  ++ (if isPosManager formData ∧ formData.pin ≠ "" then [("pin", formData.pin)] else [])

end EditEmployeeModal

/-! ## usermanagement.js: the decoded list payload -/

/-- The decoded body `apiData` of the list response (line 102): a JSON array of
records, a single record, or `null`. -/
inductive ApiData where
  | null
  | object (user : RemoteUser)
  | array (users : List RemoteUser)
  deriving DecidableEq, Repr

/-- The value of `apiData` after lines 103-104: a truthy non-array payload is wrapped
in a one-element array and a falsy payload becomes the empty array. -/
def apiDataArray : ApiData → List RemoteUser
  | ApiData.null => []
  | ApiData.object user => [user]
  | ApiData.array users => users

/-- The argument of `setEmployees` on line 116: the cache computed by `fetchEmployees`
from the decoded body of a successful response. -/
def fetchEmployees (apiData : ApiData) : List Employee :=
  mappedEmployees (apiDataArray apiData)

/-! ## Modal state -/

/-- The state of a modal: its `formData`, its three error states, and the
`showModal` prop it is rendered with. -/
structure ModalState where
  formData : FormData
  passwordError : String
  confirmPasswordError : String
  pinError : String
  showModal : Bool
  deriving DecidableEq, Repr

/-- The constant `initialFormData` of both modals: every field blank. -/
def initialFormData : FormData :=
  { firstName := "", middleName := "", suffix := "", lastName := "", username := "",
    email := "", phone := "", role := "", system := "", password := "",
    confirmPassword := "", pin := "" }

/-- The value of `editingEmployee.firstName`: the records of the cache are built by
`mapUser` (and copied by `archiveUpdate`) with the eight properties of `Employee`,
so reading this property gives `undefined`. -/
def Employee.firstName (_ : Employee) : Option String := none

/-- The value of `editingEmployee.middleName`, a property the cached record does not
have. -/
def Employee.middleName (_ : Employee) : Option String := none

/-- The value of `editingEmployee.lastName`, a property the cached record does not
have. -/
def Employee.lastName (_ : Employee) : Option String := none

/-- The value of `editingEmployee.suffix`, a property the cached record does not
have. -/
def Employee.suffix (_ : Employee) : Option String := none

/-- The argument of `setFormData` in the effect of `EditEmployeeModal`
(lines 29-47). -/
def EditEmployeeModal.prefill (editingEmployee : Option Employee) : FormData :=
  match editingEmployee with
  | some emp =>
    { firstName := orDefault emp.firstName ""
      middleName := orDefault emp.middleName ""
      lastName := orDefault emp.lastName ""
      suffix := orDefault emp.suffix ""
      username := orDefault emp.username ""
      email := orDefault emp.email ""
      phone := if emp.phone = "N/A" then "" else orDefault (some emp.phone) ""
      role := orDefault emp.role ""
      system := orDefault (some emp.system) ""
      password := ""
      confirmPassword := ""
      pin := "" }
  | none => initialFormData

/-- The effect of `EditEmployeeModal` (lines 28-54), run when `editingEmployee` or
`showModal` changes: the form is prefilled and the three errors are reset. -/
def EditEmployeeModal.openEffect (editingEmployee : Option Employee) (showModal : Bool) :
    ModalState :=
  { formData := EditEmployeeModal.prefill editingEmployee
    passwordError := ""
    confirmPasswordError := ""
    pinError := ""
    showModal := showModal }

/-- The effect of `AddEmployeeModal` (lines 28-36), run when `showModal` changes. -/
def AddEmployeeModal.openEffect (showModal : Bool) : ModalState :=
  { formData := initialFormData
    passwordError := ""
    confirmPasswordError := ""
    pinError := ""
    showModal := showModal }

/-- The handler `handleEditEmployee` of the directory view (lines 147-150): the edit
modal is rendered with the row as `editingEmployee` and `showModal = true`, which
runs its effect. -/
def handleEditEmployee (emp : Employee) : ModalState :=
  EditEmployeeModal.openEffect (some emp) true

/-! ## Submission -/

/-- The `detail` property of the decoded error body, as `handleSubmit` observes it:
absent, a string, or a value of another type, given by its truthiness and by its
conversion to a string (what `new Error(detail).message` holds). -/
inductive Detail where
  | absent
  | text (s : String)
  | other (truthy : Bool) (asString : String)
  deriving DecidableEq, Repr

/-- The outcome of `await response.json()` on a response that is not ok, followed by
the read of `errData.detail`: the promise is rejected because the body is not JSON
(with the message of that error), the body is the JSON `null` and reading the
property throws a `TypeError` (with its message), or the body is any other JSON value
and `detail` is its property of that name. -/
inductive DecodedBody where
  | rejected (message : String)
  | null (message : String)
  | value (detail : Detail)
  deriving DecidableEq, Repr

/-- The outcome of the `fetch` call of `handleSubmit`: the promise is rejected with an
error carrying `message`, or it resolves to a response with its `ok` flag and its
body, which the code decodes only when the response is not ok. -/
inductive FetchResult where
  | rejected (message : String)
  | response (ok : Bool) (errData : DecodedBody)
  deriving DecidableEq, Repr

/-- The truthiness of `errData.detail`. -/
def Detail.truthy : Detail → Bool
  | Detail.absent => false
  | Detail.text s => s != ""
  | Detail.other truthy _ => truthy

/-- The conversion of `errData.detail` to a string, which `new Error(detail)` stores
as its `message`. -/
def Detail.toString : Detail → String
  | Detail.absent => "undefined"
  | Detail.text s => s
  | Detail.other _ asString => asString

/-- The message of `new Error(errData.detail || fallback)`. -/
def Detail.orMessage (detail : Detail) (fallback : String) : String :=
  if detail.truthy then detail.toString else fallback

/-- The `message` of the error that reaches the `catch` block of `handleSubmit` after
a response that is not ok (addEmployeeModal.js lines 110-113, editEmployeeModal.js
lines 139-142): the error of the failed decoding, or the error thrown with the
detail or the fallback text. -/
def caughtMessage (errData : DecodedBody) (fallback : String) : String :=
  match errData with
  | DecodedBody.rejected message => message
  | DecodedBody.null message => message
  | DecodedBody.value detail => detail.orMessage fallback

/-- What one run of a submit handler leaves behind: the modal state, the body of the
request if one was sent, the text of the `alert` if one was shown, and whether
`onSuccess` (the page reload) was called. -/
structure SubmitResult where
  state : ModalState
  sent : Option Payload
  alert : Option String
  reloaded : Bool
  deriving DecidableEq, Repr

/-- The test `!token` on the value of `localStorage.getItem("authToken")`. -/
def tokenMissing (token : Option String) : Bool :=
  match token with
  | none => true
  | some t => t == ""

/-- The modal state with the error states set by `validateForm`. -/
def withErrors (st : ModalState) (v : Validation) : ModalState :=
  { st with passwordError := v.passwordError
            confirmPasswordError := v.confirmPasswordError
            pinError := v.pinError }

/-- The function `handleSubmit` of the create flow (lines 71-121). `onClose` is the
parent's `handleModalClose`, which hides the modal, so that the modal's effect
resets it; `onSuccess` reloads the page. -/
def AddEmployeeModal.handleSubmit (token : Option String) (fetch : Payload → FetchResult)
    (st : ModalState) : SubmitResult :=
  let v := AddEmployeeModal.validateForm st.formData
  if v.isValid = false then
    { state := withErrors st v, sent := none, alert := none, reloaded := false }
  else if tokenMissing token then
    { state := AddEmployeeModal.openEffect false, sent := none
      alert := some "Authentication error.", reloaded := false }
  else
    let formDataPayload := AddEmployeeModal.formDataPayload st.formData
    match fetch formDataPayload with
    | FetchResult.rejected message =>
      { state := withErrors st v, sent := some formDataPayload, alert := some message
        reloaded := false }
    | FetchResult.response false errData =>
      { state := withErrors st v, sent := some formDataPayload
        alert := some (caughtMessage errData "Failed to add employee"), reloaded := false }
    | FetchResult.response true _ =>
      { state := AddEmployeeModal.openEffect false, sent := some formDataPayload
        alert := some "Employee added successfully!", reloaded := true }

/-- The function `handleSubmit` of the edit flow (lines 91-150); `fetch` takes the id
that the request URL carries. -/
def EditEmployeeModal.handleSubmit (editingEmployee : Option Employee)
    (token : Option String) (fetch : JSVal → Payload → FetchResult) (st : ModalState) :
    SubmitResult :=
  match editingEmployee with
  | none =>
    { state := st, sent := none, alert := some "No employee selected for editing."
      reloaded := false }
  | some emp =>
    let v := EditEmployeeModal.validateForm st.formData
    if v.isValid = false then
      { state := withErrors st v, sent := none, alert := none, reloaded := false }
    else if tokenMissing token then
      { state := EditEmployeeModal.openEffect none false, sent := none
        alert := some "Authentication error.", reloaded := false }
    else
      let formDataPayload := EditEmployeeModal.formDataPayload st.formData
      match fetch emp.id formDataPayload with
      | FetchResult.rejected message =>
        { state := withErrors st v, sent := some formDataPayload, alert := some message
          reloaded := false }
      | FetchResult.response false errData =>
        { state := withErrors st v, sent := some formDataPayload
          alert := some (caughtMessage errData "Failed to update employee")
          reloaded := false }
      | FetchResult.response true _ =>
        { state := EditEmployeeModal.openEffect none false, sent := some formDataPayload
          alert := some "Employee updated successfully!", reloaded := true }

/-- The `name` attributes of the controls of the create form that carry the
`required` attribute (addEmployeeModal.js lines 139, 143, 159, 165, 175, 188, 202,
213, 223), in order; the PIN input is rendered only under `showPinField`. -/
def AddEmployeeModal.requiredControls : List String :=
  ["firstName", "lastName", "username", "email", "role", "system", "pin", "password",
   "confirmPassword"]

/-- The `name` attributes of the controls of the edit form that carry the `required`
attribute (editEmployeeModal.js lines 168, 172, 194, 204, 217), in order; the
username input (line 188) is disabled and not required. -/
def EditEmployeeModal.requiredControls : List String :=
  ["firstName", "lastName", "email", "role", "system"]

/-! ## The stored preference: JSON.parse -/

/-- The value returned by `JSON.parse`, as far as the reading code can tell values
apart: `null`, a boolean, or the kind of any other value. -/
inductive Json where
  | null
  | bool (b : Bool)
  | number
  | string
  | array
  | object
  deriving DecidableEq, Repr

/-- The position of the JSON scanner inside the grammar. -/
inductive Scan where
  | value
  | valueOrClose
  | keyOrClose
  | key
  | colon
  | after
  | literal (rest : List Char)
  | string (isKey : Bool)
  | escape (isKey : Bool)
  | hex (isKey : Bool) (k : Nat)
  | minus
  | zero
  | int
  | dot
  | frac
  | exp
  | expSign
  | expDigits
  deriving DecidableEq, Repr

/-- The state of the JSON scanner: the position in the grammar, the open containers
(`true` for an object, `false` for an array, innermost first) and the top-level value
once it has started. -/
structure ScanState where
  mode : Scan
  stack : List Bool
  result : Option Json
  deriving DecidableEq, Repr

/-- JSON white space: space, tab, line feed, carriage return. -/
def isJsonSpace (c : Char) : Bool :=
  c == ' ' || c == '\t' || c == '\n' || c == '\r'

/-- A hexadecimal digit of a `\u` escape. -/
def isHexDigit (c : Char) : Bool :=
  c.isDigit || (decide ('a' ≤ c) && decide (c ≤ 'f')) || (decide ('A' ≤ c) && decide (c ≤ 'F'))

/-- The top-level value is recorded when a value starts outside every container. -/
def noteResult (st : ScanState) (j : Json) : Option Json :=
  if st.stack = [] then some j else st.result

/-- The scanner reads the first character of a value. -/
def startValue (st : ScanState) (c : Char) : Option ScanState :=
  if c == '\x22' then
    some { st with mode := Scan.string false, result := noteResult st Json.string }
  else if c == '-' then
    some { st with mode := Scan.minus, result := noteResult st Json.number }
  else if c == '0' then
    some { st with mode := Scan.zero, result := noteResult st Json.number }
  else if c.isDigit then
    some { st with mode := Scan.int, result := noteResult st Json.number }
  else if c == 't' then
    some { st with mode := Scan.literal ['r', 'u', 'e'],
                   result := noteResult st (Json.bool true) }
  else if c == 'f' then
    some { st with mode := Scan.literal ['a', 'l', 's', 'e'],
                   result := noteResult st (Json.bool false) }
  else if c == 'n' then
    some { st with mode := Scan.literal ['u', 'l', 'l'], result := noteResult st Json.null }
  else if c == '[' then
    some { mode := Scan.valueOrClose, stack := false :: st.stack,
           result := noteResult st Json.array }
  else if c == '\x7b' then
    some { mode := Scan.keyOrClose, stack := true :: st.stack,
           result := noteResult st Json.object }
  else none

/-- The scanner reads a character that follows a complete value: white space, a
comma inside a container, or the bracket that closes the innermost container. -/
def afterValue (st : ScanState) (c : Char) : Option ScanState :=
  if isJsonSpace c then some { st with mode := Scan.after }
  else
    match st.stack with
    | [] => none
    | true :: outer =>
      if c == ',' then some { st with mode := Scan.key }
      else if c == '\x7d' then some { st with mode := Scan.after, stack := outer }
      else none
    | false :: outer =>
      if c == ',' then some { st with mode := Scan.value }
      else if c == ']' then some { st with mode := Scan.after, stack := outer }
      else none

/-- One step of the JSON scanner; `none` is a syntax error. -/
def scanStep (st : ScanState) (c : Char) : Option ScanState :=
  match st.mode with
  | Scan.value => if isJsonSpace c then some st else startValue st c
  | Scan.valueOrClose =>
    if isJsonSpace c then some st
    else if c == ']' then some { st with mode := Scan.after, stack := st.stack.tail }
    else startValue { st with mode := Scan.value } c
  | Scan.keyOrClose =>
    if isJsonSpace c then some st
    else if c == '\x22' then some { st with mode := Scan.string true }
    else if c == '\x7d' then some { st with mode := Scan.after, stack := st.stack.tail }
    else none
  | Scan.key =>
    if isJsonSpace c then some st
    else if c == '\x22' then some { st with mode := Scan.string true }
    else none
  | Scan.colon =>
    if isJsonSpace c then some st
    else if c == ':' then some { st with mode := Scan.value }
    else none
  | Scan.after => afterValue st c
  | Scan.literal [] => none
  | Scan.literal (r :: rest) =>
    if c == r then
      some { st with mode := if rest = [] then Scan.after else Scan.literal rest }
    else none
  | Scan.string isKey =>
    if c == '\x22' then some { st with mode := if isKey then Scan.colon else Scan.after }
    else if c == '\x5c' then some { st with mode := Scan.escape isKey }
    else if c.toNat < 32 then none
    else some st
  | Scan.escape isKey =>
    if c == 'u' then some { st with mode := Scan.hex isKey 4 }
    else if c == '\x22' || c == '\x5c' || c == '/' || c == 'b' || c == 'f' || c == 'n'
        || c == 'r' || c == 't' then
      some { st with mode := Scan.string isKey }
    else none
  | Scan.hex isKey k =>
    if isHexDigit c then
      some { st with mode := if k ≤ 1 then Scan.string isKey else Scan.hex isKey (k - 1) }
    else none
  | Scan.minus =>
    if c == '0' then some { st with mode := Scan.zero }
    else if c.isDigit then some { st with mode := Scan.int }
    else none
  | Scan.zero =>
    if c == '.' then some { st with mode := Scan.dot }
    else if c == 'e' || c == 'E' then some { st with mode := Scan.exp }
    else afterValue st c
  | Scan.int =>
    if c.isDigit then some st
    else if c == '.' then some { st with mode := Scan.dot }
    else if c == 'e' || c == 'E' then some { st with mode := Scan.exp }
    else afterValue st c
  | Scan.dot => if c.isDigit then some { st with mode := Scan.frac } else none
  | Scan.frac =>
    if c.isDigit then some st
    else if c == 'e' || c == 'E' then some { st with mode := Scan.exp }
    else afterValue st c
  | Scan.exp =>
    if c == '+' || c == '-' then some { st with mode := Scan.expSign }
    else if c.isDigit then some { st with mode := Scan.expDigits }
    else none
  | Scan.expSign => if c.isDigit then some { st with mode := Scan.expDigits } else none
  | Scan.expDigits => if c.isDigit then some st else afterValue st c

/-- The scanner run over a text. -/
def scan : ScanState → List Char → Option ScanState
  | st, [] => some st
  | st, c :: cs =>
    match scanStep st c with
    | none => none
    | some st1 => scan st1 cs

/-- The scanner may stop here: one complete value has been read and no container is
open. -/
def accepting (st : ScanState) : Bool :=
  st.stack.isEmpty
    && (st.mode == Scan.after || st.mode == Scan.zero || st.mode == Scan.int
        || st.mode == Scan.frac || st.mode == Scan.expDigits)

/-- The function `JSON.parse` on a text: the parsed value, or `none` when the text is
not JSON and the call throws a `SyntaxError`. -/
def JSON.parse (text : String) : Option Json :=
  match scan { mode := Scan.value, stack := [], result := none } text.data with
  | none => none
  | some st => if accepting st then st.result else none

/-- The function `JSON.stringify` on a boolean (sidebar.js line 24 writes the
preference with it). -/
def JSON.stringify (b : Bool) : String :=
  if b then "true" else "false"

/-- The initialiser of the `sidebarCollapsed` state (sidebar.js lines 15-18,
usermanagement.js lines 34-37, dashboard.js lines 132-135), given the value `saved`
of `localStorage.getItem('sidebarCollapsed')`: `none` when `JSON.parse` throws. -/
def initialSidebarCollapsed (saved : Option String) : Option Json :=
  match saved with
  | none => some (Json.bool false)
  | some text => JSON.parse text

/-! ## Reconciliation of the sidebar preference -/

/-- Strict equality `a === b` on parsed values. It is decided for `null` and the
booleans; values of different kinds differ, and so do two arrays or two objects
(each parse builds a new one). Two numbers or two strings, whose contents `Json` does
not keep, count as different: the caller then stores the fresh value, which is the
same `Json` as the one it would have kept. -/
def Json.strictEq : Json → Json → Bool
  | Json.null, Json.null => true
  | Json.bool a, Json.bool b => a == b
  | _, _ => false

/-- The listener `handleStorageChange` of the sync effect (usermanagement.js lines
41-46, dashboard.js lines 139-144), as the value of `sidebarCollapsed` after it ran on
the stored item `saved`; `none` when `JSON.parse` throws, which leaves the state as
it was. -/
def handleStorageChange (sidebarCollapsed : Json) (saved : Option String) : Option Json :=
  match saved with
  | none => some sidebarCollapsed
  | some text =>
    match JSON.parse text with
    | none => none
    | some parsed => some parsed

/-- The callback of `setInterval` in the sync effect (usermanagement.js lines 52-60,
dashboard.js lines 150-158), as the value of `sidebarCollapsed` after one tick on the
stored item `saved`; `none` when `JSON.parse` throws. -/
def intervalTick (sidebarCollapsed : Json) (saved : Option String) : Option Json :=
  match saved with
  | none => some sidebarCollapsed
  | some text =>
    match JSON.parse text with
    | none => none
    | some newState =>
      if !(newState.strictEq sidebarCollapsed) then some newState else some sidebarCollapsed

/-! ## Role options -/

/-- The `value` attributes of the options of the role filter (usermanagement.js lines
237-244), in order. -/
def roleFilterOptions : List String :=
  ["", "manager", "admin", "staff", "rider", "cashier", "user", "super admin"]

/-- The `value` attributes of the options of the role select of the create form
(addEmployeeModal.js lines 176-183), in order. -/
def AddEmployeeModal.roleOptions : List String :=
  ["", "manager", "admin", "staff", "rider", "cashier", "user", "super admin"]

/-- The `value` attributes of the options of the role select of the edit form
(editEmployeeModal.js lines 205-212), in order. -/
def EditEmployeeModal.roleOptions : List String :=
  ["", "manager", "admin", "staff", "rider", "cashier", "user", "super admin"]

/-! ## The claims in the words of the specification -/

/-- A string of exactly four decimal digits. -/
def FourDigits (s : String) : Prop :=
  s.data.length = 4 ∧ ∀ c ∈ s.data, '0' ≤ c ∧ c ≤ '9'

/-- Deciding `FourDigits` by inspecting the characters. -/
instance instDecidableFourDigits (s : String) : Decidable (FourDigits s) := by
  unfold FourDigits
  infer_instance

/-- The value `v` is a string that contains `searchTerm`, both compared after the
case mapping. -/
def ContainsCI (toLowerCase : String → String) (v : Option String) (searchTerm : String) :
    Prop :=
  ∃ s, v = some s ∧ (toLowerCase searchTerm).data <:+: (toLowerCase s).data

/-- The row predicate of section 4.5: (name or email contains the search term) and
(role filter empty or equal to the role) and (system filter empty or equal to the
system). -/
def Visible (toLowerCase : String → String) (searchTerm roleFilter systemFilter : String)
    (e : Employee) : Prop :=
  (ContainsCI toLowerCase e.name searchTerm ∨ ContainsCI toLowerCase e.email searchTerm)
    ∧ (roleFilter = "" ∨ e.role = some roleFilter)
    ∧ (systemFilter = "" ∨ e.system = systemFilter)

/-- Deciding `ContainsCI` by inspecting the value. -/
instance instDecidableContainsCI (toLowerCase : String → String) (v : Option String)
    (searchTerm : String) : Decidable (ContainsCI toLowerCase v searchTerm) :=
  match v with
  | none => isFalse (fun ⟨_, h, _⟩ => Option.noConfusion h)
  | some s =>
    if h : (toLowerCase searchTerm).data <:+: (toLowerCase s).data then
      isTrue ⟨s, rfl, h⟩
    else
      isFalse (fun ⟨_, hs, hi⟩ => h (Option.some.inj hs ▸ hi))

/-- Deciding `Visible` clause by clause. -/
instance instDecidableVisible (toLowerCase : String → String)
    (searchTerm roleFilter systemFilter : String) (e : Employee) :
    Decidable (Visible toLowerCase searchTerm roleFilter systemFilter e) := by
  unfold Visible
  infer_instance

/-- Modelled from the spec: the fixed enumeration of roles of section 3,
`{admin, manager, staff, rider, cashier, user, super_admin}`, which no source file
declares. -/
def roleEnumeration : List String :=
  ["admin", "manager", "staff", "rider", "cashier", "user", "super_admin"]

/-! ## Sample data -/

/-- A case mapping used to instantiate the theorems on concrete rows: it lower-cases
the letters `A`..`Z` and leaves every other character as it is. -/
def asciiLowerCase (s : String) : String :=
  String.mk (s.data.map Char.toLower)

/-- A cached record of a POS manager. -/
def sampleAlice : Employee :=
  { id := JSVal.num 1, name := some "Alice Cruz", username := some "alice",
    email := some "alice@example.com", role := some "manager", system := "POS",
    status := "Active", phone := "N/A" }

/-- A cached record of an IMS staff member. -/
def sampleBob : Employee :=
  { id := JSVal.num 2, name := some "Bob Reyes", username := some "bob",
    email := some "bob@example.com", role := some "staff", system := "IMS",
    status := "Active", phone := "0917" }

/-- A cache of two records, used to instantiate the theorems on the cache. -/
def sampleCache : List Employee :=
  [sampleAlice, sampleBob]

/-- A remote record that carries neither `fullName` nor `email`. -/
def namelessUser : RemoteUser :=
  { userID := JSVal.num 7, fullName := none, username := some "ghost", email := none,
    userRole := some "staff", system := some "IMS", isDisabled := JSVal.bool false,
    phoneNumber := none }

/-- Two remote records, the first without `email` and the second without
`fullName`. -/
def partialUsers : List RemoteUser :=
  [ { userID := JSVal.num 8, fullName := some "Carla Diaz", username := some "carla",
      email := none, userRole := some "cashier", system := none,
      isDisabled := JSVal.bool true, phoneNumber := none },
    { userID := JSVal.str "u9", fullName := none, username := some "dan",
      email := some "dan@example.com", userRole := some "rider", system := some "OOS",
      isDisabled := JSVal.bool false, phoneNumber := some "0918" } ]

/-- A create form of a POS manager, with a six-character password and a malformed
PIN. -/
def sampleForm : FormData :=
  { firstName := "Alice", middleName := "", suffix := "", lastName := "Cruz",
    username := "alice", email := "alice@example.com", phone := "", role := "manager",
    system := "POS", password := "short1", confirmPassword := "other", pin := "12a4" }

/-- A form of a staff member on POS, for which the PIN rule is inactive. -/
def staffForm : FormData :=
  { sampleForm with role := "staff", password := "longenough12",
                    confirmPassword := "longenough12", pin := "" }

/-- The remote record from which `sampleAlice` is normalised. -/
def sampleRemoteAlice : RemoteUser :=
  { userID := JSVal.num 1, fullName := some "Alice Cruz", username := some "alice",
    email := some "alice@example.com", userRole := some "manager", system := some "POS",
    isDisabled := JSVal.bool false, phoneNumber := none }

/-- A form that passes create-flow and edit-flow validation. -/
def validForm : FormData :=
  { sampleForm with password := "longenough12", confirmPassword := "longenough12",
                    pin := "1234" }

/-- An open modal holding `validForm`, with no error shown. -/
def validState : ModalState :=
  { formData := validForm, passwordError := "", confirmPasswordError := "", pinError := "",
    showModal := true }

/-- A remote service that rejects every request with the detail "Username already
exists". -/
def rejectingFetch (_ : Payload) : FetchResult :=
  FetchResult.response false (DecodedBody.value (Detail.text "Username already exists"))

/-- A remote service (or a proxy in front of it) that answers every request with a
status that is not ok and a body that is not JSON, on which `response.json()` is
rejected with the message given here. -/
def plainTextErrorFetch (_ : Payload) : FetchResult :=
  FetchResult.response false
    (DecodedBody.rejected "Unexpected token I in JSON at position 0")

/-- An open modal holding `validForm` with the first name erased. -/
def blankNameState : ModalState :=
  { validState with formData := { validForm with firstName := "" } }

/-! ## Auxiliary facts -/

theorem JSVal.strictEq_iff (a b : JSVal) : a.strictEq b = true ↔ a = b := by
  cases a <;> cases b <;> simp [JSVal.strictEq]

theorem optMatch_iff (toLowerCase : String → String) (v : Option String) (searchTerm : String) :
    optMatch toLowerCase v searchTerm = some true ↔ ContainsCI toLowerCase v searchTerm := by
  cases v with
  | none => simp [optMatch, ContainsCI]
  | some s => simp [optMatch, ContainsCI, includes]

theorem orTruthy_iff (a b : Option Bool) :
    orTruthy a b = true ↔ a = some true ∨ b = some true := by
  rcases a with _ | _ | _ <;> rcases b with _ | _ | _ <;> simp [orTruthy]

theorem rowMatches_iff (toLowerCase : String → String)
    (searchTerm roleFilter systemFilter : String) (e : Employee) :
    rowMatches toLowerCase searchTerm roleFilter systemFilter e = true
      ↔ Visible toLowerCase searchTerm roleFilter systemFilter e := by
  unfold rowMatches Visible
  simp only [Bool.and_eq_true, orTruthy_iff, optMatch_iff]
  by_cases hr : roleFilter = "" <;> by_cases hs : systemFilter = "" <;> simp [hr, hs, and_assoc]

theorem archiveUpdate_cons (emp : Employee) (prev : List Employee) (empId : JSVal) :
    archiveUpdate (emp :: prev) empId
      = (if emp.id = empId then { emp with status := "Inactive" } else emp)
          :: archiveUpdate prev empId := by
  by_cases h : emp.id = empId
  · simp [archiveUpdate, h, (JSVal.strictEq_iff empId empId).2 rfl]
  · have h2 : emp.id.strictEq empId = false := by
      cases hh : emp.id.strictEq empId
      · rfl
      · exact absurd ((JSVal.strictEq_iff _ _).1 hh) h
    simp [archiveUpdate, h, h2]

/-! ## Directory: normalisation, archive, visible rows -/

/-- Claim C1. For every list of remote records, the cache produced by the list
normalisation pairs each record, position by position, with its normalised
Employee, whose status is "Inactive" exactly when the record's isDisabled flag is
true (truthy) and "Active" exactly when it is not; for a boolean flag `b` the
status is "Inactive" iff `b = true` and "Active" iff `b = false`. -/
theorem status_iff_isDisabled (apiData : List RemoteUser) :
    List.Forall₂
        (fun user emp => emp = mapUser user
          ∧ (emp.status = "Inactive" ↔ user.isDisabled.truthy = true)
          ∧ (emp.status = "Active" ↔ user.isDisabled.truthy = false))
        apiData (mappedEmployees apiData)
      ∧ ∀ (user : RemoteUser) (b : Bool),
          ((mapUser { user with isDisabled := JSVal.bool b }).status = "Inactive" ↔ b = true)
          ∧ ((mapUser { user with isDisabled := JSVal.bool b }).status = "Active" ↔ b = false) := by
  constructor
  · induction apiData with
    | nil => exact List.Forall₂.nil
    | cons u us ih =>
      refine List.Forall₂.cons ⟨rfl, ?_, ?_⟩ ih
      · cases h : u.isDisabled.truthy <;> simp [mapUser, h]
      · cases h : u.isDisabled.truthy <;> simp [mapUser, h]
  · intro user b
    cases b <;> simp [mapUser, JSVal.truthy]

/-- Claim C2. For every cache and id, the archive update returns a list of the same
length whose records correspond to the cache position by position: every field
other than the status is unchanged, a record whose id equals the given id has status
"Inactive", and a record with a different id is unchanged. -/
theorem archiveUpdate_frame (prev : List Employee) (empId : JSVal) :
    (archiveUpdate prev empId).length = prev.length
      ∧ List.Forall₂
          (fun old new =>
            new.id = old.id ∧ new.name = old.name ∧ new.username = old.username
              ∧ new.email = old.email ∧ new.role = old.role ∧ new.system = old.system
              ∧ new.phone = old.phone
              ∧ (old.id = empId → new.status = "Inactive")
              ∧ (old.id ≠ empId → new = old))
          prev (archiveUpdate prev empId) := by
  constructor
  · simp [archiveUpdate]
  · induction prev with
    | nil => exact List.Forall₂.nil
    | cons e es ih =>
      rw [archiveUpdate_cons]
      refine List.Forall₂.cons ?_ ih
      by_cases h : e.id = empId <;> simp [h]

/-- Claim C3. Archiving is idempotent on the cache: applying the archive update twice
gives the same cache as applying it once, and after the first and after the second
application every record with the given id has status "Inactive". -/
theorem archiveUpdate_idempotent (prev : List Employee) (empId : JSVal) :
    archiveUpdate (archiveUpdate prev empId) empId = archiveUpdate prev empId
      ∧ (∀ e ∈ archiveUpdate prev empId, e.id = empId → e.status = "Inactive")
      ∧ (∀ e ∈ archiveUpdate (archiveUpdate prev empId) empId,
          e.id = empId → e.status = "Inactive") := by
  have once : ∀ l : List Employee, ∀ e ∈ archiveUpdate l empId,
      e.id = empId → e.status = "Inactive" := by
    intro l
    induction l with
    | nil => intro e he; simp [archiveUpdate] at he
    | cons x xs ih =>
      intro e he hid
      rw [archiveUpdate_cons, List.mem_cons] at he
      rcases he with rfl | he
      · by_cases h : x.id = empId
        · simp [h]
        · simp [h] at hid
      · exact ih e he hid
  refine ⟨?_, once prev, once _⟩
  induction prev with
  | nil => rfl
  | cons x xs ih =>
    rw [archiveUpdate_cons, archiveUpdate_cons, ih]
    by_cases h : x.id = empId <;> simp [h]

/-- Instance of claim C2 on `sampleCache`: after archiving id 1 the cache still has
two records, the first has status "Inactive" and keeps its name, and the second is
the record it was. -/
theorem archiveUpdate_frame_witness :
    ∃ a b, archiveUpdate sampleCache (JSVal.num 1) = [a, b]
      ∧ a.status = "Inactive" ∧ a.name = sampleAlice.name ∧ b = sampleBob := by
  have h := (archiveUpdate_frame sampleCache (JSVal.num 1)).2
  obtain ⟨hA, hT⟩ := List.forall₂_cons.1
    (show List.Forall₂ _ (sampleAlice :: [sampleBob]) (_ :: _ :: []) from h)
  obtain ⟨hB, -⟩ := List.forall₂_cons.1 hT
  exact ⟨_, _, rfl, hA.2.2.2.2.2.2.2.1 rfl, hA.2.1, hB.2.2.2.2.2.2.2.2 (by decide)⟩

/-- Instance of claim C3 on `sampleCache`: the record with id 1 is "Inactive" after
one archive and after two, and the two caches are equal. -/
theorem archiveUpdate_idempotent_witness :
    archiveUpdate (archiveUpdate sampleCache (JSVal.num 1)) (JSVal.num 1)
        = archiveUpdate sampleCache (JSVal.num 1)
      ∧ ∀ e ∈ archiveUpdate sampleCache (JSVal.num 1), e.id = JSVal.num 1 →
          e.status = "Inactive" :=
  ⟨(archiveUpdate_idempotent sampleCache (JSVal.num 1)).1,
   (archiveUpdate_idempotent sampleCache (JSVal.num 1)).2.1⟩

/-- Claim C4. For every cache, search term, role filter and system filter, the
visible rows are exactly the cache records, in cache order, that satisfy the row
predicate of the specification (`Visible`: name or email contains the search term
after case mapping, role filter empty or equal to the role, system filter empty or
equal to the system); they form a sub-sequence of the cache and each of them
satisfies the predicate. -/
theorem filteredData_spec (toLowerCase : String → String) (employees : List Employee)
    (searchTerm roleFilter systemFilter : String) :
    filteredData toLowerCase employees searchTerm roleFilter systemFilter
        = employees.filter
            (fun e => decide (Visible toLowerCase searchTerm roleFilter systemFilter e))
      ∧ List.Sublist (filteredData toLowerCase employees searchTerm roleFilter systemFilter)
          employees
      ∧ ∀ e ∈ filteredData toLowerCase employees searchTerm roleFilter systemFilter,
          Visible toLowerCase searchTerm roleFilter systemFilter e := by
  refine ⟨?_, List.filter_sublist _, ?_⟩
  · unfold filteredData
    apply List.filter_congr
    intro e _
    rw [Bool.eq_iff_iff, rowMatches_iff, decide_eq_true_iff]
  · intro e he
    exact (rowMatches_iff _ _ _ _ e).1 (List.mem_filter.1 he).2

/-- Instance of claim C4 on `sampleCache` with search term "ALI" and system filter
"POS": the only visible row is the first record, and it satisfies the predicate. -/
theorem filteredData_spec_witness :
    filteredData asciiLowerCase sampleCache "ALI" "" "POS" = [sampleAlice]
      ∧ Visible asciiLowerCase "ALI" "" "POS" sampleAlice :=
  ⟨by decide,
   (filteredData_spec asciiLowerCase sampleCache "ALI" "" "POS").2.2 sampleAlice (by decide)⟩

/-- Counterexample to claim C5. The cache normalised from the single record
`namelessUser` is not empty, yet with empty search term, role filter and system
filter no row is visible: both `nameMatch` and `emailMatch` are `undefined`. -/
theorem filteredData_no_filters_counterexample :
    mappedEmployees [namelessUser] ≠ []
      ∧ filteredData asciiLowerCase (mappedEmployees [namelessUser]) "" "" "" = []
      ∧ filteredData asciiLowerCase (mappedEmployees [namelessUser]) "" "" ""
          ≠ mappedEmployees [namelessUser] := by
  decide

/-- Claim C5, amended. For every cache produced by the list normalisation, with the
search term, the role filter and the system filter all empty, the visible rows are
exactly the cache records, in cache order, that carry a name or an email. Hence the
visible rows equal the cache if and only if every remote record carries a `fullName`
or an `email` (one of the two may be absent), and a record with neither `fullName`
nor `email` is not among the visible rows. The case mapping maps the empty string to
itself. -/
theorem filteredData_no_filters (toLowerCase : String → String)
    (hlow : toLowerCase "" = "") (apiData : List RemoteUser) :
    (filteredData toLowerCase (mappedEmployees apiData) "" "" "" = mappedEmployees apiData
        ↔ ∀ u ∈ apiData, u.fullName ≠ none ∨ u.email ≠ none)
      ∧ filteredData toLowerCase (mappedEmployees apiData) "" "" ""
          = (mappedEmployees apiData).filter (fun e => e.name.isSome || e.email.isSome)
      ∧ (∀ e ∈ filteredData toLowerCase (mappedEmployees apiData) "" "" "",
          ¬ (e.name = none ∧ e.email = none))
      ∧ (∀ u : RemoteUser, u.fullName = none → u.email = none →
          mapUser u ∉ filteredData toLowerCase (mappedEmployees apiData) "" "" "") := by
  have row : ∀ e : Employee,
      rowMatches toLowerCase "" "" "" e = (e.name.isSome || e.email.isSome) := by
    intro e
    rw [Bool.eq_iff_iff, rowMatches_iff]
    unfold Visible ContainsCI
    simp only [hlow, Bool.or_eq_true, Option.isSome_iff_exists]
    constructor
    · rintro ⟨h, -, -⟩
      rcases h with ⟨s, hs, -⟩ | ⟨s, hs, -⟩
      · exact Or.inl ⟨s, hs⟩
      · exact Or.inr ⟨s, hs⟩
    · intro h
      refine ⟨?_, Or.inl trivial, Or.inl trivial⟩
      rcases h with ⟨s, hs⟩ | ⟨s, hs⟩
      · exact Or.inl ⟨s, hs, List.nil_infix⟩
      · exact Or.inr ⟨s, hs, List.nil_infix⟩
  have key : ∀ u : RemoteUser,
      rowMatches toLowerCase "" "" "" (mapUser u) = true
        ↔ (u.fullName ≠ none ∨ u.email ≠ none) := by
    intro u
    rw [row]
    simp only [mapUser, Bool.or_eq_true, Option.isSome_iff_ne_none]
  have hfilter : filteredData toLowerCase (mappedEmployees apiData) "" "" ""
      = (mappedEmployees apiData).filter (fun e => e.name.isSome || e.email.isSome) := by
    unfold filteredData
    apply List.filter_congr
    intro e _
    exact row e
  have hnot : ∀ e ∈ filteredData toLowerCase (mappedEmployees apiData) "" "" "",
      ¬ (e.name = none ∧ e.email = none) := by
    intro e he hboth
    rw [hfilter] at he
    have h := (List.mem_filter.1 he).2
    simp [hboth.1, hboth.2] at h
  refine ⟨?_, hfilter, hnot, ?_⟩
  · unfold filteredData mappedEmployees
    rw [List.filter_eq_self]
    constructor
    · intro h u hu
      exact (key u).1 (h _ (List.mem_map_of_mem _ hu))
    · intro h e he
      obtain ⟨u, hu, rfl⟩ := List.mem_map.1 he
      exact (key u).2 (h u hu)
  · intro u hn he hmem
    exact hnot _ hmem ⟨hn, he⟩

/-- Instance of the amended claim C5. On `partialUsers`, where each record lacks one
of the two fields, the visible rows with the filters empty are the whole cache; and
the record of `namelessUser`, which has neither, is not among the visible rows of the
cache that holds it after them. -/
theorem filteredData_no_filters_witness :
    asciiLowerCase "" = ""
      ∧ (∀ u ∈ partialUsers, u.fullName ≠ none ∨ u.email ≠ none)
      ∧ filteredData asciiLowerCase (mappedEmployees partialUsers) "" "" ""
          = mappedEmployees partialUsers
      ∧ mapUser namelessUser ∈ mappedEmployees (partialUsers ++ [namelessUser])
      ∧ mapUser namelessUser
          ∉ filteredData asciiLowerCase (mappedEmployees (partialUsers ++ [namelessUser]))
              "" "" "" :=
  ⟨by decide, by decide,
   (filteredData_no_filters asciiLowerCase (by decide) partialUsers).1.2 (by decide),
   by decide,
   (filteredData_no_filters asciiLowerCase (by decide)
      (partialUsers ++ [namelessUser])).2.2.2 namelessUser rfl rfl⟩

/-! ## Forms: PIN pattern -/

theorem isDigit_iff (c : Char) : c.isDigit = true ↔ '0' ≤ c ∧ c ≤ '9' := by
  simp only [Char.isDigit, Bool.and_eq_true, decide_eq_true_eq, Char.le_def, UInt32.le_def,
    ge_iff_le]
  rfl

theorem matchDigits_iff (n : Nat) (l : List Char) :
    matchDigits n l = true ↔ l.length = n ∧ ∀ c ∈ l, '0' ≤ c ∧ c ≤ '9' := by
  induction n generalizing l with
  | zero => cases l <;> simp [matchDigits]
  | succ n ih =>
    cases l with
    | nil => simp [matchDigits]
    | cons c cs => simp [matchDigits, ih, isDigit_iff, and_assoc, and_left_comm]

theorem testPin_iff (s : String) : testPin s = true ↔ FourDigits s :=
  matchDigits_iff 4 s.data

theorem not_fourDigits_empty : ¬ FourDigits "" := by
  intro h
  exact absurd h.1 (by decide)

theorem isPosManager_iff (formData : FormData) :
    isPosManager formData = true ↔ formData.role = "manager" ∧ formData.system = "POS" := by
  simp [isPosManager]

/-! ## Create flow -/

/-- Claim C6. Create-flow validation rejects every form whose password is blank or
shorter than 12 characters (UTF-16 code units, the `length` of the source) and
reports the password-length error for it. -/
theorem create_password_too_short (formData : FormData)
    (h : formData.password = "" ∨ jsLength formData.password < 12) :
    (AddEmployeeModal.validateForm formData).isValid = false
      ∧ (AddEmployeeModal.validateForm formData).passwordError
          = "Password must be at least 12 characters." := by
  unfold AddEmployeeModal.validateForm AddEmployeeModal.pinStep AddEmployeeModal.passwordStep
  rw [if_pos h]
  constructor <;> split_ifs <;> rfl

/-- Instance of claim C6: the password "short1" (6 characters) is rejected with the
length error. -/
theorem create_password_too_short_witness :
    sampleForm.password = "short1"
      ∧ (AddEmployeeModal.validateForm sampleForm).isValid = false
      ∧ (AddEmployeeModal.validateForm sampleForm).passwordError
          = "Password must be at least 12 characters." :=
  ⟨rfl, create_password_too_short sampleForm (Or.inr (by decide))⟩

/-- Counterexample to claim C7. In `sampleForm` the password "short1" is present and
differs from the confirmation "other", yet validation reports no password-mismatch
error: the mismatch test sits in the `else` branch of the length test. -/
theorem create_password_mismatch_counterexample :
    sampleForm.password ≠ "" ∧ sampleForm.password ≠ sampleForm.confirmPassword
      ∧ (AddEmployeeModal.validateForm sampleForm).confirmPasswordError = ""
      ∧ (AddEmployeeModal.validateForm sampleForm).confirmPasswordError
          ≠ "Passwords do not match!" := by
  decide

/-- Claim C7, amended. Create-flow validation rejects every form whose password is
present and differs from the confirmation; it reports the password-mismatch error
for it exactly when the password has at least 12 characters, with no length error
then, and a shorter password gets the length error and no mismatch error. -/
theorem create_password_mismatch (formData : FormData)
    (hp : formData.password ≠ "") (hne : formData.password ≠ formData.confirmPassword) :
    (AddEmployeeModal.validateForm formData).isValid = false
      ∧ ((AddEmployeeModal.validateForm formData).confirmPasswordError
            = "Passwords do not match!" ↔ 12 ≤ jsLength formData.password)
      ∧ (12 ≤ jsLength formData.password →
          (AddEmployeeModal.validateForm formData).passwordError = "")
      ∧ (jsLength formData.password < 12 →
          (AddEmployeeModal.validateForm formData).passwordError
              = "Password must be at least 12 characters."
            ∧ (AddEmployeeModal.validateForm formData).confirmPasswordError = "") := by
  unfold AddEmployeeModal.validateForm AddEmployeeModal.pinStep AddEmployeeModal.passwordStep
  by_cases hl : jsLength formData.password < 12
  · rw [if_pos (Or.inr hl)]
    have hl2 : ¬ 12 ≤ jsLength formData.password := by omega
    refine ⟨?_, ?_, ?_, ?_⟩
    · split_ifs <;> rfl
    · constructor
      · intro h
        exfalso
        revert h
        split_ifs <;> simp [Validation.init]
      · intro h
        exact absurd h hl2
    · intro h
      exact absurd h hl2
    · intro _
      constructor <;> split_ifs <;> rfl
  · have hcond : ¬ (formData.password = "" ∨ jsLength formData.password < 12) := by
      rintro (h | h)
      · exact hp h
      · exact hl h
    rw [if_neg hcond, if_pos hne]
    have hl2 : 12 ≤ jsLength formData.password := by omega
    refine ⟨?_, ?_, ?_, ?_⟩
    · split_ifs <;> rfl
    · constructor
      · intro _
        exact hl2
      · intro _
        split_ifs <;> rfl
    · intro _
      split_ifs <;> rfl
    · intro h
      exact absurd h hl

/-- Instance of the amended claim C7: the password "longenough12" with the
confirmation "longenough13" is rejected with the mismatch error and no length
error. -/
theorem create_password_mismatch_witness :
    (AddEmployeeModal.validateForm
        { sampleForm with password := "longenough12", confirmPassword := "longenough13" }).isValid
        = false
      ∧ (AddEmployeeModal.validateForm
          { sampleForm with password := "longenough12",
                            confirmPassword := "longenough13" }).confirmPasswordError
        = "Passwords do not match!" :=
  have h := create_password_mismatch
    { sampleForm with password := "longenough12", confirmPassword := "longenough13" }
    (by decide) (by decide)
  ⟨h.1, h.2.1.2 (by decide)⟩

/-! ## PIN rule -/

theorem create_pinError_eq (formData : FormData) :
    (AddEmployeeModal.validateForm formData).pinError
      = if isPosManager formData = true ∧ ¬ FourDigits formData.pin
        then "A 4-digit PIN is required for POS Managers." else "" := by
  have hpw : (AddEmployeeModal.passwordStep formData Validation.init).pinError = "" := by
    unfold AddEmployeeModal.passwordStep
    split_ifs <;> rfl
  unfold AddEmployeeModal.validateForm AddEmployeeModal.pinStep
  by_cases hm : isPosManager formData = true
  · by_cases hd : FourDigits formData.pin
    · have ht : testPin formData.pin = true := (testPin_iff _).2 hd
      have hne : formData.pin ≠ "" := fun h => not_fourDigits_empty (h ▸ hd)
      simp [hm, hd, ht, hne, hpw]
    · have ht : testPin formData.pin = false := by
        cases h : testPin formData.pin
        · rfl
        · exact absurd ((testPin_iff _).1 h) hd
      simp [hm, hd, ht]
  · simp [hm, hpw]

theorem edit_pinError_eq (formData : FormData) :
    (EditEmployeeModal.validateForm formData).pinError
      = if isPosManager formData = true ∧ formData.pin ≠ "" ∧ ¬ FourDigits formData.pin
        then "New PIN must be 4 digits." else "" := by
  have hpw : (EditEmployeeModal.passwordStep formData Validation.init).pinError = "" := by
    unfold EditEmployeeModal.passwordStep
    split_ifs <;> rfl
  unfold EditEmployeeModal.validateForm EditEmployeeModal.pinStep
  by_cases hm : isPosManager formData = true
  · by_cases hb : formData.pin = ""
    · simp [hm, hb, hpw]
    · by_cases hd : FourDigits formData.pin
      · have ht : testPin formData.pin = true := (testPin_iff _).2 hd
        simp [hm, hd, ht, hb, hpw]
      · have ht : testPin formData.pin = false := by
          cases h : testPin formData.pin
          · rfl
          · exact absurd ((testPin_iff _).1 h) hd
        simp [hm, hd, ht, hb]
  · simp [hm, hpw]

/-- Claim C8. In the create flow, for every form with role "manager" and system
"POS", validation reports the PIN error if and only if the pin is not exactly four
decimal digits, the blank pin included, and reports none otherwise; the pin "12a4"
gives the error and the pin "1234" gives none. -/
theorem create_pin_rule (formData : FormData)
    (hr : formData.role = "manager") (hs : formData.system = "POS") :
    ((AddEmployeeModal.validateForm formData).pinError
          = "A 4-digit PIN is required for POS Managers." ↔ ¬ FourDigits formData.pin)
      ∧ ((AddEmployeeModal.validateForm formData).pinError = "" ↔ FourDigits formData.pin)
      ∧ (formData.pin = "" →
          (AddEmployeeModal.validateForm formData).pinError
            = "A 4-digit PIN is required for POS Managers.")
      ∧ (AddEmployeeModal.validateForm { formData with pin := "12a4" }).pinError
          = "A 4-digit PIN is required for POS Managers."
      ∧ (AddEmployeeModal.validateForm { formData with pin := "1234" }).pinError = "" := by
  have hm : isPosManager formData = true := (isPosManager_iff _).2 ⟨hr, hs⟩
  have hbad : ¬ FourDigits "12a4" := fun h => absurd ((testPin_iff _).2 h) (by decide)
  have hgood : FourDigits "1234" := (testPin_iff _).1 (by decide)
  refine ⟨?_, ?_, ?_, ?_, ?_⟩
  · rw [create_pinError_eq]
    by_cases hd : FourDigits formData.pin <;> simp [hm, hd]
  · rw [create_pinError_eq]
    by_cases hd : FourDigits formData.pin <;> simp [hm, hd]
  · intro hb
    rw [create_pinError_eq, hb]
    simp [hm, not_fourDigits_empty]
  · rw [create_pinError_eq]
    have hm2 : isPosManager { formData with pin := "12a4" } = true :=
      (isPosManager_iff _).2 ⟨hr, hs⟩
    simp [hm2, hbad]
  · rw [create_pinError_eq]
    simp [hgood]

/-- Instance of claim C8 on `sampleForm`, whose pin is "12a4": the PIN error is
reported, and it is not once the pin is "1234". -/
theorem create_pin_rule_witness :
    sampleForm.role = "manager" ∧ sampleForm.system = "POS" ∧ sampleForm.pin = "12a4"
      ∧ (AddEmployeeModal.validateForm sampleForm).pinError
          = "A 4-digit PIN is required for POS Managers."
      ∧ (AddEmployeeModal.validateForm { sampleForm with pin := "1234" }).pinError = "" :=
  ⟨rfl, rfl, rfl, (create_pin_rule sampleForm rfl rfl).2.2.2.1,
    (create_pin_rule sampleForm rfl rfl).2.2.2.2⟩

/-- Claim C9. The pin field is inert outside the manager+POS combination: for
every form whose role is not "manager" or whose system is not "POS", and every other
value `pin` of the pin field (so that the two forms differ in their pin at most),
create-flow validation gives the same result on both forms and reports no PIN
error, edit-flow validation likewise, the two create payloads are identical and
have no pin field, and the two update payloads are identical and have no pin
field. -/
theorem pin_inert (formData : FormData) (pin : String)
    (h : ¬ (formData.role = "manager" ∧ formData.system = "POS")) :
    AddEmployeeModal.validateForm { formData with pin := pin }
        = AddEmployeeModal.validateForm formData
      ∧ (AddEmployeeModal.validateForm formData).pinError = ""
      ∧ EditEmployeeModal.validateForm { formData with pin := pin }
        = EditEmployeeModal.validateForm formData
      ∧ (EditEmployeeModal.validateForm formData).pinError = ""
      ∧ AddEmployeeModal.formDataPayload { formData with pin := pin }
        = AddEmployeeModal.formDataPayload formData
      ∧ (∀ entry ∈ AddEmployeeModal.formDataPayload formData, entry.1 ≠ "pin")
      ∧ EditEmployeeModal.formDataPayload { formData with pin := pin }
        = EditEmployeeModal.formDataPayload formData
      ∧ (∀ entry ∈ EditEmployeeModal.formDataPayload formData, entry.1 ≠ "pin") := by
  have hm : isPosManager formData = false := by
    cases hh : isPosManager formData
    · rfl
    · exact absurd ((isPosManager_iff _).1 hh) h
  have hm2 : isPosManager { formData with pin := pin } = false := hm
  have hne : ¬ (isPosManager formData = true) := by simp [hm]
  refine ⟨?_, ?_, ?_, ?_, ?_, ?_, ?_, ?_⟩
  · simp only [AddEmployeeModal.validateForm, AddEmployeeModal.pinStep, hm, hm2,
      AddEmployeeModal.passwordStep]
    rfl
  · rw [create_pinError_eq]
    simp [hm]
  · simp only [EditEmployeeModal.validateForm, EditEmployeeModal.pinStep, hm, hm2,
      EditEmployeeModal.passwordStep]
    simp
  · rw [edit_pinError_eq]
    simp [hm]
  · simp only [AddEmployeeModal.formDataPayload, hm, hm2]
    rfl
  · intro entry he
    simp only [AddEmployeeModal.formDataPayload, hm] at he
    simp at he
    rcases he with rfl | rfl | rfl | rfl | rfl | rfl | rfl | rfl | rfl | rfl <;> simp
  · simp only [EditEmployeeModal.formDataPayload, hm, hm2]
    simp
  · intro entry he
    simp only [EditEmployeeModal.formDataPayload, hm] at he
    simp at he
    rcases he with rfl | rfl | rfl | rfl | rfl | rfl | rfl | rfl | ⟨-, rfl⟩ <;> simp

/-- Instance of claim C9 on `staffForm` (role "staff", system "POS", blank pin) and
the pin "12a4": no PIN error, same validation results, same payloads. -/
theorem pin_inert_witness :
    ¬ (staffForm.role = "manager" ∧ staffForm.system = "POS")
      ∧ (AddEmployeeModal.validateForm staffForm).pinError = ""
      ∧ AddEmployeeModal.validateForm { staffForm with pin := "12a4" }
          = AddEmployeeModal.validateForm staffForm
      ∧ EditEmployeeModal.formDataPayload { staffForm with pin := "12a4" }
          = EditEmployeeModal.formDataPayload staffForm :=
  have h := pin_inert staffForm "12a4" (by decide)
  ⟨by decide, h.2.1, h.1, h.2.2.2.2.2.2.1⟩

/-- Claim C10. In the edit flow, for every form with role "manager" and system
"POS", validation reports the PIN error if and only if the pin is non-blank and is
not exactly four decimal digits; a blank pin gives no PIN error. -/
theorem edit_pin_rule (formData : FormData)
    (hr : formData.role = "manager") (hs : formData.system = "POS") :
    ((EditEmployeeModal.validateForm formData).pinError = "New PIN must be 4 digits."
          ↔ formData.pin ≠ "" ∧ ¬ FourDigits formData.pin)
      ∧ ((EditEmployeeModal.validateForm formData).pinError = ""
          ↔ formData.pin = "" ∨ FourDigits formData.pin)
      ∧ (formData.pin = "" → (EditEmployeeModal.validateForm formData).pinError = "") := by
  have hm : isPosManager formData = true := (isPosManager_iff _).2 ⟨hr, hs⟩
  refine ⟨?_, ?_, ?_⟩
  · rw [edit_pinError_eq]
    by_cases hb : formData.pin = "" <;> by_cases hd : FourDigits formData.pin <;>
      simp [hm, hb, hd]
  · rw [edit_pinError_eq]
    by_cases hb : formData.pin = "" <;> by_cases hd : FourDigits formData.pin <;>
      simp [hm, hb, hd]
  · intro hb
    rw [edit_pinError_eq]
    simp [hb]

/-- Instance of claim C10: on the POS manager form `sampleForm` the pin "12a4" gives
the PIN error of the edit flow and the blank pin gives none. -/
theorem edit_pin_rule_witness :
    (EditEmployeeModal.validateForm sampleForm).pinError = "New PIN must be 4 digits."
      ∧ (EditEmployeeModal.validateForm { sampleForm with pin := "" }).pinError = "" :=
  ⟨(edit_pin_rule sampleForm rfl rfl).1.2
      ⟨by decide, fun h => absurd ((testPin_iff _).2 h) (by decide)⟩,
   (edit_pin_rule { sampleForm with pin := "" } rfl rfl).2.2 rfl⟩

/-! ## Password rule: the error states in closed form -/

theorem create_passwordError_eq (formData : FormData) :
    (AddEmployeeModal.validateForm formData).passwordError
      = if formData.password = "" ∨ jsLength formData.password < 12
        then "Password must be at least 12 characters." else "" := by
  unfold AddEmployeeModal.validateForm AddEmployeeModal.pinStep AddEmployeeModal.passwordStep
  split_ifs <;> rfl

theorem create_confirmError_eq (formData : FormData) :
    (AddEmployeeModal.validateForm formData).confirmPasswordError
      = if ¬ (formData.password = "" ∨ jsLength formData.password < 12)
            ∧ formData.password ≠ formData.confirmPassword
        then "Passwords do not match!" else "" := by
  unfold AddEmployeeModal.validateForm AddEmployeeModal.pinStep AddEmployeeModal.passwordStep
  split_ifs <;> first | rfl | (exfalso; tauto)

theorem edit_passwordError_eq (formData : FormData) :
    (EditEmployeeModal.validateForm formData).passwordError
      = if formData.password ≠ "" ∧ jsLength formData.password < 12
        then "New password must be at least 12 characters." else "" := by
  unfold EditEmployeeModal.validateForm EditEmployeeModal.pinStep EditEmployeeModal.passwordStep
  split_ifs <;> first | rfl | (exfalso; tauto)

theorem edit_confirmError_eq (formData : FormData) :
    (EditEmployeeModal.validateForm formData).confirmPasswordError
      = if formData.password ≠ "" ∧ ¬ jsLength formData.password < 12
            ∧ formData.password ≠ formData.confirmPassword
        then "Passwords do not match!" else "" := by
  unfold EditEmployeeModal.validateForm EditEmployeeModal.pinStep EditEmployeeModal.passwordStep
  split_ifs <;> first | rfl | (exfalso; tauto)

theorem create_isValid_iff (formData : FormData) :
    (AddEmployeeModal.validateForm formData).isValid = true
      ↔ (formData.password ≠ "" ∧ 12 ≤ jsLength formData.password
          ∧ formData.password = formData.confirmPassword)
        ∧ (isPosManager formData = true → FourDigits formData.pin) := by
  have ht : formData.pin = "" ∨ testPin formData.pin = false ↔ ¬ FourDigits formData.pin := by
    rw [← testPin_iff]
    constructor
    · rintro (h | h)
      · rw [h]; decide
      · simp [h]
    · intro h
      exact Or.inr (by simpa using h)
  unfold AddEmployeeModal.validateForm AddEmployeeModal.pinStep AddEmployeeModal.passwordStep
  simp only [ht]
  split_ifs <;> simp_all [Validation.init]
  all_goals
    intro h1 h2
    rename_i hc
    rcases hc with hc | hc
    · exact absurd hc h1
    · omega

theorem edit_isValid_iff (formData : FormData) :
    (EditEmployeeModal.validateForm formData).isValid = true
      ↔ (formData.password ≠ "" →
            12 ≤ jsLength formData.password ∧ formData.password = formData.confirmPassword)
        ∧ (isPosManager formData = true → formData.pin ≠ "" → FourDigits formData.pin) := by
  have ht : testPin formData.pin = false ↔ ¬ FourDigits formData.pin := by
    rw [← testPin_iff]; simp
  unfold EditEmployeeModal.validateForm EditEmployeeModal.pinStep EditEmployeeModal.passwordStep
  simp only [ht]
  split_ifs <;> simp_all [Validation.init]

/-! ## Edit flow: password rule -/

/-- Claim C11. Edit-flow password rule: for every form with a blank password,
validation reports no password error and no confirmation error, whatever the
confirmation field contains; for every form with a non-blank password it reports the
length error if and only if the password is shorter than 12 characters, and the
mismatch error if and only if the password has at least 12 characters and differs
from the confirmation. -/
theorem edit_password_rule (formData : FormData) :
    (formData.password = "" →
        (EditEmployeeModal.validateForm formData).passwordError = ""
          ∧ (EditEmployeeModal.validateForm formData).confirmPasswordError = "")
      ∧ (formData.password ≠ "" →
          ((EditEmployeeModal.validateForm formData).passwordError
                = "New password must be at least 12 characters."
              ↔ jsLength formData.password < 12)
            ∧ ((EditEmployeeModal.validateForm formData).confirmPasswordError
                = "Passwords do not match!"
              ↔ 12 ≤ jsLength formData.password
                  ∧ formData.password ≠ formData.confirmPassword)) := by
  rw [edit_passwordError_eq, edit_confirmError_eq]
  constructor
  · intro hb
    simp [hb]
  · intro hp
    constructor
    · by_cases hl : jsLength formData.password < 12 <;> simp [hp, hl]
    · by_cases hl : jsLength formData.password < 12
      · simp [hp, hl]
      · by_cases hc : formData.password = formData.confirmPassword
        · simp [hp, hl, hc]
        · simp only [hp, hl, hc, ne_eq, not_false_eq_true, and_self, if_true, true_iff,
            and_true]
          omega

/-- Instance of claim C11: with a blank password and the confirmation "other" no
password or confirmation error is reported; the password "short1" gets the length
error; the password "longenough12" with the confirmation "other" gets the mismatch
error. -/
theorem edit_password_rule_witness :
    ((EditEmployeeModal.validateForm { sampleForm with password := "" }).passwordError = ""
        ∧ (EditEmployeeModal.validateForm
            { sampleForm with password := "" }).confirmPasswordError = "")
      ∧ (EditEmployeeModal.validateForm sampleForm).passwordError
          = "New password must be at least 12 characters."
      ∧ (EditEmployeeModal.validateForm
          { sampleForm with password := "longenough12" }).confirmPasswordError
          = "Passwords do not match!" :=
  ⟨(edit_password_rule { sampleForm with password := "" }).1 rfl,
   ((edit_password_rule sampleForm).2 (by decide)).1.2 (by decide),
   ((edit_password_rule { sampleForm with password := "longenough12" }).2 (by decide)).2.2
      ⟨by decide, by decide⟩⟩

/-! ## Payloads -/

/-- Claim C12. For every form, the create payload starts with the fields firstName,
middleName, lastName, suffix, username, password, email, phoneNumber, userRole,
system, in that order and each carrying the form's value; what follows them is a
single pin field carrying the form's pin when role is "manager" and system is "POS",
and nothing otherwise, so that the payload has a pin field if and only if role is
"manager" and system is "POS". -/
theorem create_payload_fields (formData : FormData) :
    (AddEmployeeModal.formDataPayload formData).take 10
        = [("firstName", formData.firstName), ("middleName", formData.middleName),
           ("lastName", formData.lastName), ("suffix", formData.suffix),
           ("username", formData.username), ("password", formData.password),
           ("email", formData.email), ("phoneNumber", formData.phone),
           ("userRole", formData.role), ("system", formData.system)]
      ∧ (AddEmployeeModal.formDataPayload formData).drop 10
          = (if formData.role = "manager" ∧ formData.system = "POS"
              then [("pin", formData.pin)] else [])
      ∧ ("pin" ∈ (AddEmployeeModal.formDataPayload formData).map Prod.fst
          ↔ formData.role = "manager" ∧ formData.system = "POS") := by
  by_cases h : formData.role = "manager" ∧ formData.system = "POS"
  · have hm : isPosManager formData = true := (isPosManager_iff _).2 h
    simp [AddEmployeeModal.formDataPayload, hm, h]
  · have hm : isPosManager formData = false := by
      cases hh : isPosManager formData
      · rfl
      · exact absurd ((isPosManager_iff _).1 hh) h
    simp [AddEmployeeModal.formDataPayload, hm, h]

/-- Claim C13. For every form, the update payload starts with the fields firstName,
middleName, lastName, suffix, email, phoneNumber, userRole, system carrying the
form's values and has no username field; every further field is a password or a pin
field; it has a password field if and only if the form's password is non-blank, and a
pin field if and only if the pin is non-blank and role is "manager" and system is
"POS"; these fields carry the form's password and pin. -/
theorem update_payload_fields (formData : FormData) :
    (EditEmployeeModal.formDataPayload formData).take 8
        = [("firstName", formData.firstName), ("middleName", formData.middleName),
           ("lastName", formData.lastName), ("suffix", formData.suffix),
           ("email", formData.email), ("phoneNumber", formData.phone),
           ("userRole", formData.role), ("system", formData.system)]
      ∧ "username" ∉ (EditEmployeeModal.formDataPayload formData).map Prod.fst
      ∧ (EditEmployeeModal.formDataPayload formData).drop 8
          = (if formData.password ≠ "" then [("password", formData.password)] else [])
            ++ (if formData.pin ≠ "" ∧ formData.role = "manager" ∧ formData.system = "POS"
                then [("pin", formData.pin)] else [])
      ∧ ("password" ∈ (EditEmployeeModal.formDataPayload formData).map Prod.fst
          ↔ formData.password ≠ "")
      ∧ ("pin" ∈ (EditEmployeeModal.formDataPayload formData).map Prod.fst
          ↔ formData.pin ≠ "" ∧ formData.role = "manager" ∧ formData.system = "POS") := by
  by_cases h : formData.role = "manager" ∧ formData.system = "POS"
  · have hm : isPosManager formData = true := (isPosManager_iff _).2 h
    by_cases hp : formData.password = "" <;> by_cases hn : formData.pin = "" <;>
      simp [EditEmployeeModal.formDataPayload, hm, h, hp, hn]
  · have hm : isPosManager formData = false := by
      cases hh : isPosManager formData
      · rfl
      · exact absurd ((isPosManager_iff _).1 hh) h
    have h2 : ¬ (formData.pin ≠ "" ∧ formData.role = "manager" ∧ formData.system = "POS") :=
      fun hh => h hh.2
    by_cases hp : formData.password = "" <;>
      simp [EditEmployeeModal.formDataPayload, hm, h2, hp]

/-! ## Independent failures are collected -/

/-- Claim C15. Validation collects independent failures: for every create-flow form
with role "manager" and system "POS" whose password fails its rule (blank, shorter
than 12 characters, or different from the confirmation) and whose pin is not four
digits, the same run reports the password error (the length error when the password
is blank or short, else the mismatch error) and the PIN error; likewise in the edit
flow for a non-blank failing password and a non-blank failing pin. -/
theorem validation_collects_failures (formData : FormData)
    (hr : formData.role = "manager") (hs : formData.system = "POS")
    (hpin : ¬ FourDigits formData.pin) :
    ((formData.password = "" ∨ jsLength formData.password < 12
          ∨ formData.password ≠ formData.confirmPassword) →
        (AddEmployeeModal.validateForm formData).pinError
            = "A 4-digit PIN is required for POS Managers."
          ∧ (if formData.password = "" ∨ jsLength formData.password < 12
              then (AddEmployeeModal.validateForm formData).passwordError
                = "Password must be at least 12 characters."
              else (AddEmployeeModal.validateForm formData).confirmPasswordError
                = "Passwords do not match!")
          ∧ (AddEmployeeModal.validateForm formData).isValid = false)
      ∧ (formData.pin ≠ "" → formData.password ≠ "" →
          (jsLength formData.password < 12
            ∨ formData.password ≠ formData.confirmPassword) →
        (EditEmployeeModal.validateForm formData).pinError = "New PIN must be 4 digits."
          ∧ (if jsLength formData.password < 12
              then (EditEmployeeModal.validateForm formData).passwordError
                = "New password must be at least 12 characters."
              else (EditEmployeeModal.validateForm formData).confirmPasswordError
                = "Passwords do not match!")
          ∧ (EditEmployeeModal.validateForm formData).isValid = false) := by
  have hm : isPosManager formData = true := (isPosManager_iff _).2 ⟨hr, hs⟩
  constructor
  · intro hpw
    refine ⟨?_, ?_, ?_⟩
    · rw [create_pinError_eq]
      simp [hm, hpin]
    · rw [create_passwordError_eq, create_confirmError_eq]
      by_cases hc : formData.password = "" ∨ jsLength formData.password < 12
      · simp [hc]
      · have hne : formData.password ≠ formData.confirmPassword := by
          rcases hpw with h | h | h
          · exact absurd (Or.inl h) hc
          · exact absurd (Or.inr h) hc
          · exact h
        simp [hc, hne]
    · cases hv : (AddEmployeeModal.validateForm formData).isValid
      · rfl
      · exact absurd (((create_isValid_iff formData).1 hv).2 hm) hpin
  · intro hnb hp hpw
    refine ⟨?_, ?_, ?_⟩
    · rw [edit_pinError_eq]
      simp [hm, hpin, hnb]
    · rw [edit_passwordError_eq, edit_confirmError_eq]
      by_cases hc : jsLength formData.password < 12
      · simp [hc, hp]
      · have hne : formData.password ≠ formData.confirmPassword := by
          rcases hpw with h | h
          · exact absurd h hc
          · exact h
        simp [hc, hne, hp]
    · cases hv : (EditEmployeeModal.validateForm formData).isValid
      · rfl
      · exact absurd (((edit_isValid_iff formData).1 hv).2 hm hnb) hpin

/-- Instance of claim C15 on `sampleForm` (password "short1", pin "12a4", POS
manager): one run of create-flow validation reports the length error and the PIN
error, and so does one run of edit-flow validation. -/
theorem validation_collects_failures_witness :
    ((AddEmployeeModal.validateForm sampleForm).pinError
          = "A 4-digit PIN is required for POS Managers."
        ∧ (AddEmployeeModal.validateForm sampleForm).passwordError
          = "Password must be at least 12 characters.")
      ∧ ((EditEmployeeModal.validateForm sampleForm).pinError = "New PIN must be 4 digits."
        ∧ (EditEmployeeModal.validateForm sampleForm).passwordError
          = "New password must be at least 12 characters.") :=
  have hpin : ¬ FourDigits sampleForm.pin := by decide
  have h := validation_collects_failures sampleForm rfl rfl hpin
  have hc := h.1 (Or.inr (Or.inl (by decide)))
  have he := h.2 (by decide) (by decide) (Or.inl (by decide))
  ⟨⟨hc.1, by simpa using hc.2.1⟩, ⟨he.1, by simpa using he.2.1⟩⟩

/-! ## Opening the edit form -/

/-- Claim C16. For every target employee (and also when none is selected), the form
state created when the edit flow opens has blank password, blank confirmPassword and
blank pin, and the three validation errors are blank. -/
theorem edit_open_blank_secrets (editingEmployee : Option Employee) (showModal : Bool) :
    (EditEmployeeModal.openEffect editingEmployee showModal).formData.password = ""
      ∧ (EditEmployeeModal.openEffect editingEmployee showModal).formData.confirmPassword = ""
      ∧ (EditEmployeeModal.openEffect editingEmployee showModal).formData.pin = ""
      ∧ (EditEmployeeModal.openEffect editingEmployee showModal).passwordError = ""
      ∧ (EditEmployeeModal.openEffect editingEmployee showModal).confirmPasswordError = ""
      ∧ (EditEmployeeModal.openEffect editingEmployee showModal).pinError = "" := by
  cases editingEmployee <;>
    simp [EditEmployeeModal.openEffect, EditEmployeeModal.prefill, initialFormData]

/-- Claim C17, as the code behaves. For every record of the cache, the form created
when the edit flow opens on it has blank firstName, middleName, lastName and suffix,
whatever the record's name: the prefill reads properties that the cached record does
not have. The other fields are taken from the record: username, email and role (blank
when absent), system, and phone (blank for the "N/A" sentinel). On `sampleAlice`,
whose name is "Alice Cruz", the form is evaluated in full. -/
theorem edit_prefill_name_fields_blank :
    (∀ emp : Employee,
        (handleEditEmployee emp).formData.firstName = ""
          ∧ (handleEditEmployee emp).formData.middleName = ""
          ∧ (handleEditEmployee emp).formData.lastName = ""
          ∧ (handleEditEmployee emp).formData.suffix = ""
          ∧ (handleEditEmployee emp).formData.username = orDefault emp.username ""
          ∧ (handleEditEmployee emp).formData.email = orDefault emp.email ""
          ∧ (handleEditEmployee emp).formData.role = orDefault emp.role ""
          ∧ (handleEditEmployee emp).formData.system = emp.system
          ∧ (handleEditEmployee emp).formData.phone
              = (if emp.phone = "N/A" then "" else emp.phone))
      ∧ sampleAlice = mapUser sampleRemoteAlice
      ∧ sampleAlice.name = some "Alice Cruz"
      ∧ (handleEditEmployee sampleAlice).formData
          = { firstName := "", middleName := "", suffix := "", lastName := "",
              username := "alice", email := "alice@example.com", phone := "",
              role := "manager", system := "POS", password := "", confirmPassword := "",
              pin := "" } := by
  refine ⟨?_, by decide, rfl, by decide⟩
  intro emp
  refine ⟨rfl, rfl, rfl, rfl, rfl, rfl, rfl, ?_, ?_⟩
  · simp only [handleEditEmployee, EditEmployeeModal.openEffect, EditEmployeeModal.prefill,
      orDefault]
    split_ifs with h
    · exact h.symm
    · rfl
  · simp only [handleEditEmployee, EditEmployeeModal.openEffect, EditEmployeeModal.prefill,
      orDefault]
    by_cases h1 : emp.phone = "N/A"
    · simp [h1]
    · by_cases h2 : emp.phone = ""
      · simp [h2]
      · simp [h1, h2]

/-! ## List normalisation -/

/-- Claim C20. List normalisation preserves shape: a JSON array of n remote records
yields a cache of n Employees, paired with the records position by position, the
Employee built from its record (id from userID, name from fullName, username, email,
role from userRole, system and phone replaced by "N/A" when absent and kept when
present and not empty); a single remote object yields the one-element cache of its
Employee; an absent payload yields the empty cache. -/
theorem fetchEmployees_shape :
    (∀ users : List RemoteUser,
        (fetchEmployees (ApiData.array users)).length = users.length
          ∧ List.Forall₂
              (fun user emp =>
                emp = mapUser user ∧ emp.id = user.userID ∧ emp.name = user.fullName
                  ∧ emp.username = user.username ∧ emp.email = user.email
                  ∧ emp.role = user.userRole
                  ∧ (user.system = none → emp.system = "N/A")
                  ∧ (user.phoneNumber = none → emp.phone = "N/A")
                  ∧ (∀ s, user.system = some s → s ≠ "" → emp.system = s)
                  ∧ (∀ s, user.phoneNumber = some s → s ≠ "" → emp.phone = s))
              users (fetchEmployees (ApiData.array users)))
      ∧ (∀ user : RemoteUser, fetchEmployees (ApiData.object user) = [mapUser user])
      ∧ fetchEmployees ApiData.null = [] := by
  refine ⟨?_, fun _ => rfl, rfl⟩
  intro users
  constructor
  · simp [fetchEmployees, apiDataArray, mappedEmployees]
  · induction users with
    | nil => exact List.Forall₂.nil
    | cons u us ih =>
      refine List.Forall₂.cons ⟨rfl, rfl, rfl, rfl, rfl, rfl, ?_, ?_, ?_, ?_⟩ ih
      · intro h; simp [mapUser, orDefault, h]
      · intro h; simp [mapUser, orDefault, h]
      · intro s h hs; simp [mapUser, orDefault, h, hs]
      · intro s h hs; simp [mapUser, orDefault, h, hs]

/-- Instance of claim C20 on the array `partialUsers`: two records give two
Employees; the first record has no system and no phone number and its Employee holds
"N/A" for both, the second keeps its system "OOS" and its phone. -/
theorem fetchEmployees_shape_witness :
    ∃ a b, fetchEmployees (ApiData.array partialUsers) = [a, b]
      ∧ a.system = "N/A" ∧ a.phone = "N/A" ∧ b.system = "OOS" ∧ b.phone = "0918" := by
  have h := (fetchEmployees_shape.1 partialUsers).2
  obtain ⟨hA, hT⟩ := List.forall₂_cons.1
    (show List.Forall₂ _ (_ :: _ :: []) (_ :: _ :: []) from h)
  obtain ⟨hB, -⟩ := List.forall₂_cons.1 hT
  exact ⟨_, _, rfl, hA.2.2.2.2.2.2.1 rfl, hA.2.2.2.2.2.2.2.1 rfl,
    hB.2.2.2.2.2.2.2.2.1 "OOS" rfl (by decide), hB.2.2.2.2.2.2.2.2.2 "0918" rfl (by decide)⟩

/-! ## Submission: what the handlers do with a validated form -/

theorem create_handleSubmit_invalid (token : Option String) (fetch : Payload → FetchResult)
    (st : ModalState) (hv : (AddEmployeeModal.validateForm st.formData).isValid = false) :
    AddEmployeeModal.handleSubmit token fetch st
      = { state := withErrors st (AddEmployeeModal.validateForm st.formData), sent := none
          alert := none, reloaded := false } := by
  simp [AddEmployeeModal.handleSubmit, hv]

theorem edit_handleSubmit_invalid (emp : Employee) (token : Option String)
    (fetch : JSVal → Payload → FetchResult) (st : ModalState)
    (hv : (EditEmployeeModal.validateForm st.formData).isValid = false) :
    EditEmployeeModal.handleSubmit (some emp) token fetch st
      = { state := withErrors st (EditEmployeeModal.validateForm st.formData), sent := none
          alert := none, reloaded := false } := by
  simp [EditEmployeeModal.handleSubmit, hv]

theorem create_handleSubmit_sent (token : Option String) (fetch : Payload → FetchResult)
    (st : ModalState) (hv : (AddEmployeeModal.validateForm st.formData).isValid = true)
    (ht : tokenMissing token = false) :
    (AddEmployeeModal.handleSubmit token fetch st).sent
      = some (AddEmployeeModal.formDataPayload st.formData) := by
  simp only [AddEmployeeModal.handleSubmit, hv, ht]
  rcases hf : fetch (AddEmployeeModal.formDataPayload st.formData) with m | ⟨ok, body⟩
  · simp
  · cases ok <;> simp

theorem edit_handleSubmit_sent (emp : Employee) (token : Option String)
    (fetch : JSVal → Payload → FetchResult) (st : ModalState)
    (hv : (EditEmployeeModal.validateForm st.formData).isValid = true)
    (ht : tokenMissing token = false) :
    (EditEmployeeModal.handleSubmit (some emp) token fetch st).sent
      = some (EditEmployeeModal.formDataPayload st.formData) := by
  simp only [EditEmployeeModal.handleSubmit, hv, ht]
  rcases hf : fetch emp.id (EditEmployeeModal.formDataPayload st.formData) with m | ⟨ok, body⟩
  · simp
  · cases ok <;> simp

theorem create_handleSubmit_notOk (token : Option String) (fetch : Payload → FetchResult)
    (st : ModalState) (errData : DecodedBody)
    (hv : (AddEmployeeModal.validateForm st.formData).isValid = true)
    (ht : tokenMissing token = false)
    (hf : fetch (AddEmployeeModal.formDataPayload st.formData)
      = FetchResult.response false errData) :
    AddEmployeeModal.handleSubmit token fetch st
      = { state := withErrors st (AddEmployeeModal.validateForm st.formData)
          sent := some (AddEmployeeModal.formDataPayload st.formData)
          alert := some (caughtMessage errData "Failed to add employee")
          reloaded := false } := by
  simp [AddEmployeeModal.handleSubmit, hv, ht, hf]

theorem edit_handleSubmit_notOk (emp : Employee) (token : Option String)
    (fetch : JSVal → Payload → FetchResult) (st : ModalState) (errData : DecodedBody)
    (hv : (EditEmployeeModal.validateForm st.formData).isValid = true)
    (ht : tokenMissing token = false)
    (hf : fetch emp.id (EditEmployeeModal.formDataPayload st.formData)
      = FetchResult.response false errData) :
    EditEmployeeModal.handleSubmit (some emp) token fetch st
      = { state := withErrors st (EditEmployeeModal.validateForm st.formData)
          sent := some (EditEmployeeModal.formDataPayload st.formData)
          alert := some (caughtMessage errData "Failed to update employee")
          reloaded := false } := by
  simp [EditEmployeeModal.handleSubmit, hv, ht, hf]

theorem caughtMessage_cases (errData : DecodedBody) (fallback : String) :
    (∀ d, errData = DecodedBody.value (Detail.text d) → d ≠ "" →
        caughtMessage errData fallback = d)
      ∧ (errData = DecodedBody.value Detail.absent → caughtMessage errData fallback = fallback)
      ∧ (errData = DecodedBody.value (Detail.text "") →
          caughtMessage errData fallback = fallback)
      ∧ (∀ a, errData = DecodedBody.value (Detail.other true a) →
          caughtMessage errData fallback = a)
      ∧ (∀ a, errData = DecodedBody.value (Detail.other false a) →
          caughtMessage errData fallback = fallback)
      ∧ (∀ m, errData = DecodedBody.rejected m → caughtMessage errData fallback = m)
      ∧ (∀ m, errData = DecodedBody.null m → caughtMessage errData fallback = m) := by
  refine ⟨?_, ?_, ?_, ?_, ?_, ?_, ?_⟩
  · intro d h hne
    simp [h, caughtMessage, Detail.orMessage, Detail.truthy, Detail.toString, hne]
  · intro h
    simp [h, caughtMessage, Detail.orMessage, Detail.truthy]
  · intro h
    simp [h, caughtMessage, Detail.orMessage, Detail.truthy]
  · intro a h
    simp [h, caughtMessage, Detail.orMessage, Detail.truthy, Detail.toString]
  · intro a h
    simp [h, caughtMessage, Detail.orMessage, Detail.truthy]
  · intro m h
    simp [h, caughtMessage]
  · intro m h
    simp [h, caughtMessage]

/-! ## Failed requests -/

/-- Counterexample to claim C19. `validState` passes validation and a token is
present; the service answers with a status that is not ok and a body that is not
JSON, so `response.json()` is rejected. The form is kept, but the reported message
is the message of the decoding error: it is neither a detail of the body, which has
none, nor the generic message. The same holds in the edit flow. -/
theorem failed_submit_message_counterexample :
    (AddEmployeeModal.validateForm validState.formData).isValid = true
      ∧ plainTextErrorFetch (AddEmployeeModal.formDataPayload validState.formData)
          = FetchResult.response false
              (DecodedBody.rejected "Unexpected token I in JSON at position 0")
      ∧ (AddEmployeeModal.handleSubmit (some "token") plainTextErrorFetch validState).alert
          = some "Unexpected token I in JSON at position 0"
      ∧ (AddEmployeeModal.handleSubmit (some "token") plainTextErrorFetch validState).alert
          ≠ some "Failed to add employee"
      ∧ (EditEmployeeModal.handleSubmit (some sampleAlice) (some "token")
            (fun _ => plainTextErrorFetch) validState).alert
          = some "Unexpected token I in JSON at position 0"
      ∧ (EditEmployeeModal.handleSubmit (some sampleAlice) (some "token")
            (fun _ => plainTextErrorFetch) validState).alert
          ≠ some "Failed to update employee" := by
  decide

/-- Claim C19, amended. No data is lost on a failed submit: for every form state that
passes validation, when a token is present and the remote create call (respectively
the update call for the employee being edited) answers with a response that is not
ok, the form data after the submission equals the form data before it, the modal
stays as open as it was, the page is not reloaded and an alert is shown. Its message
is the body's detail when that is a non-empty string; the generic message when the
detail is absent, empty or otherwise falsy; the string conversion of a truthy detail
that is not a string; and the message of the decoding error when the body is not
JSON or is `null`. -/
theorem failed_submit_keeps_form (token : Option String) (st : ModalState)
    (errData : DecodedBody) (ht : tokenMissing token = false) :
    (∀ fetch : Payload → FetchResult,
        (AddEmployeeModal.validateForm st.formData).isValid = true →
        fetch (AddEmployeeModal.formDataPayload st.formData)
          = FetchResult.response false errData →
        (AddEmployeeModal.handleSubmit token fetch st).state.formData = st.formData
          ∧ (AddEmployeeModal.handleSubmit token fetch st).state.showModal = st.showModal
          ∧ (AddEmployeeModal.handleSubmit token fetch st).reloaded = false
          ∧ (AddEmployeeModal.handleSubmit token fetch st).alert
              = some (caughtMessage errData "Failed to add employee"))
      ∧ (∀ (emp : Employee) (fetch : JSVal → Payload → FetchResult),
          (EditEmployeeModal.validateForm st.formData).isValid = true →
          fetch emp.id (EditEmployeeModal.formDataPayload st.formData)
            = FetchResult.response false errData →
          (EditEmployeeModal.handleSubmit (some emp) token fetch st).state.formData
              = st.formData
            ∧ (EditEmployeeModal.handleSubmit (some emp) token fetch st).state.showModal
              = st.showModal
            ∧ (EditEmployeeModal.handleSubmit (some emp) token fetch st).reloaded = false
            ∧ (EditEmployeeModal.handleSubmit (some emp) token fetch st).alert
                = some (caughtMessage errData "Failed to update employee"))
      ∧ (∀ fallback : String,
          (∀ d, errData = DecodedBody.value (Detail.text d) → d ≠ "" →
              caughtMessage errData fallback = d)
            ∧ (errData = DecodedBody.value Detail.absent →
                caughtMessage errData fallback = fallback)
            ∧ (errData = DecodedBody.value (Detail.text "") →
                caughtMessage errData fallback = fallback)
            ∧ (∀ a, errData = DecodedBody.value (Detail.other true a) →
                caughtMessage errData fallback = a)
            ∧ (∀ a, errData = DecodedBody.value (Detail.other false a) →
                caughtMessage errData fallback = fallback)
            ∧ (∀ m, errData = DecodedBody.rejected m → caughtMessage errData fallback = m)
            ∧ (∀ m, errData = DecodedBody.null m → caughtMessage errData fallback = m)) := by
  refine ⟨?_, ?_, caughtMessage_cases errData⟩
  · intro fetch hv hf
    rw [create_handleSubmit_notOk token fetch st errData hv ht hf]
    exact ⟨rfl, rfl, rfl, rfl⟩
  · intro emp fetch hv hf
    rw [edit_handleSubmit_notOk emp token fetch st errData hv ht hf]
    exact ⟨rfl, rfl, rfl, rfl⟩

/-- Instance of the amended claim C19 on `validState` and a service that rejects with
the detail "Username already exists": after the create submission and after the
update submission the modal still holds `validForm`, is still open, and the alert
shows the detail. -/
theorem failed_submit_keeps_form_witness :
    ((AddEmployeeModal.handleSubmit (some "token") rejectingFetch validState).state.formData
          = validForm
        ∧ (AddEmployeeModal.handleSubmit (some "token") rejectingFetch
            validState).state.showModal = true
        ∧ (AddEmployeeModal.handleSubmit (some "token") rejectingFetch validState).alert
          = some "Username already exists")
      ∧ ((EditEmployeeModal.handleSubmit (some sampleAlice) (some "token")
            (fun _ => rejectingFetch) validState).state.formData = validForm
        ∧ (EditEmployeeModal.handleSubmit (some sampleAlice) (some "token")
            (fun _ => rejectingFetch) validState).alert
          = some "Username already exists") :=
  have h := failed_submit_keeps_form (some "token") validState
    (DecodedBody.value (Detail.text "Username already exists")) rfl
  have hc := h.1 rejectingFetch (by decide) rfl
  have he := h.2.1 sampleAlice (fun _ => rejectingFetch) (by decide) rfl
  have hm := fun fallback => (h.2.2 fallback).1 "Username already exists" rfl (by decide)
  ⟨⟨hc.1, hc.2.1, by rw [hc.2.2.2, hm]⟩, ⟨he.1, by rw [he.2.2.2, hm]⟩⟩

/-! ## Required plain fields -/

/-- Counterexample to claim C14. In `blankNameState` the first name is blank, yet
`validateForm` returns `true` in the create flow and in the edit flow, and
`handleSubmit` sends the payload, whose firstName field is empty. -/
theorem required_fields_counterexample :
    blankNameState.formData.firstName = ""
      ∧ (AddEmployeeModal.validateForm blankNameState.formData).isValid = true
      ∧ (AddEmployeeModal.handleSubmit (some "token") rejectingFetch blankNameState).sent
          = some (AddEmployeeModal.formDataPayload blankNameState.formData)
      ∧ ("firstName", "") ∈ AddEmployeeModal.formDataPayload blankNameState.formData
      ∧ (EditEmployeeModal.validateForm blankNameState.formData).isValid = true
      ∧ (EditEmployeeModal.handleSubmit (some sampleAlice) (some "token")
            (fun _ => rejectingFetch) blankNameState).sent
          = some (EditEmployeeModal.formDataPayload blankNameState.formData)
      ∧ ("firstName", "") ∈ EditEmployeeModal.formDataPayload blankNameState.formData := by
  decide

/-- Claim C14, amended. The required plain fields are enforced by the `required`
attribute of their controls only (create form: firstName, lastName, username, email,
role, system; edit form: firstName, lastName, email, role, system, the username
being disabled), not by `validateForm`: in both flows the result of `validateForm`
does not depend on the first name, middle name, last name, suffix, username, email
or phone, and a form whose password rule passes is valid when its role or its system
is blank. Whenever `validateForm` fails, `handleSubmit` sends no payload and keeps
the form data; whenever it passes and a token is present, `handleSubmit` sends the
payload of the form, blank plain fields included. -/
theorem plain_fields_not_validated (token : Option String) (st : ModalState) :
    ((∀ name ∈ ["firstName", "lastName", "username", "email", "role", "system"],
          name ∈ AddEmployeeModal.requiredControls)
        ∧ (∀ name ∈ ["firstName", "lastName", "email", "role", "system"],
            name ∈ EditEmployeeModal.requiredControls)
        ∧ "username" ∉ EditEmployeeModal.requiredControls)
      ∧ (∀ firstName middleName lastName suffix username email phone : String,
          AddEmployeeModal.validateForm
              { st.formData with firstName := firstName, middleName := middleName,
                                 lastName := lastName, suffix := suffix,
                                 username := username, email := email, phone := phone }
            = AddEmployeeModal.validateForm st.formData
          ∧ EditEmployeeModal.validateForm
              { st.formData with firstName := firstName, middleName := middleName,
                                 lastName := lastName, suffix := suffix,
                                 username := username, email := email, phone := phone }
            = EditEmployeeModal.validateForm st.formData)
      ∧ ((st.formData.role = "" ∨ st.formData.system = "") →
          st.formData.password ≠ "" → 12 ≤ jsLength st.formData.password →
          st.formData.password = st.formData.confirmPassword →
          (AddEmployeeModal.validateForm st.formData).isValid = true
            ∧ (EditEmployeeModal.validateForm st.formData).isValid = true)
      ∧ (∀ fetch : Payload → FetchResult,
          ((AddEmployeeModal.validateForm st.formData).isValid = false →
              (AddEmployeeModal.handleSubmit token fetch st).sent = none
                ∧ (AddEmployeeModal.handleSubmit token fetch st).state.formData
                  = st.formData)
            ∧ ((AddEmployeeModal.validateForm st.formData).isValid = true →
                tokenMissing token = false →
                (AddEmployeeModal.handleSubmit token fetch st).sent
                  = some (AddEmployeeModal.formDataPayload st.formData)))
      ∧ (∀ (emp : Employee) (fetch : JSVal → Payload → FetchResult),
          ((EditEmployeeModal.validateForm st.formData).isValid = false →
              (EditEmployeeModal.handleSubmit (some emp) token fetch st).sent = none
                ∧ (EditEmployeeModal.handleSubmit (some emp) token fetch st).state.formData
                  = st.formData)
            ∧ ((EditEmployeeModal.validateForm st.formData).isValid = true →
                tokenMissing token = false →
                (EditEmployeeModal.handleSubmit (some emp) token fetch st).sent
                  = some (EditEmployeeModal.formDataPayload st.formData))) := by
  refine ⟨⟨by decide, by decide, by decide⟩, ?_, ?_, ?_, ?_⟩
  · intro firstName middleName lastName suffix username email phone
    exact ⟨rfl, rfl⟩
  · intro hblank hp hlen heq
    have hm : ¬ (isPosManager st.formData = true) := by
      intro h
      obtain ⟨hr, hs⟩ := (isPosManager_iff _).1 h
      rcases hblank with hb | hb
      · rw [hb] at hr
        exact absurd hr (by decide)
      · rw [hb] at hs
        exact absurd hs (by decide)
    constructor
    · exact (create_isValid_iff _).2 ⟨⟨hp, hlen, heq⟩, fun h => absurd h hm⟩
    · exact (edit_isValid_iff _).2 ⟨fun _ => ⟨hlen, heq⟩, fun h => absurd h hm⟩
  · intro fetch
    constructor
    · intro hv
      rw [create_handleSubmit_invalid token fetch st hv]
      exact ⟨rfl, rfl⟩
    · intro hv ht
      exact create_handleSubmit_sent token fetch st hv ht
  · intro emp fetch
    constructor
    · intro hv
      rw [edit_handleSubmit_invalid emp token fetch st hv]
      exact ⟨rfl, rfl⟩
    · intro hv ht
      exact edit_handleSubmit_sent emp token fetch st hv ht

/-- Instance of the amended claim C14: `sampleForm`, whose password is too short,
fails create-flow validation and nothing is sent; `blankNameState`, whose first name
is blank, passes it and its payload is sent. -/
theorem plain_fields_not_validated_witness :
    (AddEmployeeModal.handleSubmit (some "token") rejectingFetch
        { validState with formData := sampleForm }).sent = none
      ∧ (AddEmployeeModal.handleSubmit (some "token") rejectingFetch blankNameState).sent
          = some (AddEmployeeModal.formDataPayload blankNameState.formData)
      ∧ "firstName" ∈ AddEmployeeModal.requiredControls :=
  ⟨(((plain_fields_not_validated (some "token")
        { validState with formData := sampleForm }).2.2.2.1 rejectingFetch).1
      (by decide)).1,
   ((plain_fields_not_validated (some "token") blankNameState).2.2.2.1 rejectingFetch).2
      (by decide) rfl,
   (plain_fields_not_validated (some "token") blankNameState).1.1 "firstName" (by decide)⟩

/-! ## Reading the sidebar preference -/

/-- Counterexample to claim C18. With the stored text "oops", which is not JSON,
reading the preference does not return `false`: `JSON.parse` throws and the
initialiser returns nothing. With the stored text "1" it returns a number, not a
boolean. -/
theorem initialSidebarCollapsed_counterexample :
    initialSidebarCollapsed (some "oops") = none
      ∧ initialSidebarCollapsed (some "oops") ≠ some (Json.bool false)
      ∧ initialSidebarCollapsed (some "1") = some Json.number := by
  decide

/-- Claim C18, amended. Reading the sidebarCollapsed preference returns `false` when
the key is unset and the stored boolean when the stored text is the JSON encoding of
a boolean; for any other stored text it is `JSON.parse` of that text, so it fails
(the call throws) exactly when the text is not parsable, and returns the parsed
value otherwise. -/
theorem initialSidebarCollapsed_spec :
    initialSidebarCollapsed none = some (Json.bool false)
      ∧ (∀ b : Bool, initialSidebarCollapsed (some (JSON.stringify b)) = some (Json.bool b))
      ∧ (∀ text : String, initialSidebarCollapsed (some text) = JSON.parse text)
      ∧ (∀ text : String,
          initialSidebarCollapsed (some text) = none ↔ JSON.parse text = none) := by
  refine ⟨rfl, ?_, fun _ => rfl, fun _ => Iff.rfl⟩
  intro b
  cases b <;> decide

/-- Instance of the amended claim C18: the stored texts "true" and "false" are read
as the booleans they encode, and the read of the stored text "oops" fails. -/
theorem initialSidebarCollapsed_spec_witness :
    initialSidebarCollapsed (some "true") = some (Json.bool true)
      ∧ initialSidebarCollapsed (some "false") = some (Json.bool false)
      ∧ initialSidebarCollapsed (some "oops") = none :=
  ⟨initialSidebarCollapsed_spec.2.1 true, initialSidebarCollapsed_spec.2.1 false,
   (initialSidebarCollapsed_spec.2.2.2 "oops").2 (by decide)⟩

/-! ## An archived row stays visible -/

theorem rowMatches_status (toLowerCase : String → String)
    (searchTerm roleFilter systemFilter : String) (emp : Employee) (status : String) :
    rowMatches toLowerCase searchTerm roleFilter systemFilter { emp with status := status }
      = rowMatches toLowerCase searchTerm roleFilter systemFilter emp :=
  rfl

theorem filteredData_archiveUpdate (toLowerCase : String → String)
    (employees : List Employee) (empId : JSVal)
    (searchTerm roleFilter systemFilter : String) :
    filteredData toLowerCase (archiveUpdate employees empId) searchTerm roleFilter systemFilter
      = archiveUpdate (filteredData toLowerCase employees searchTerm roleFilter systemFilter)
          empId := by
  induction employees with
  | nil => rfl
  | cons e es ih =>
    have hrow : rowMatches toLowerCase searchTerm roleFilter systemFilter
        (if e.id = empId then { e with status := "Inactive" } else e)
          = rowMatches toLowerCase searchTerm roleFilter systemFilter e := by
      split_ifs
      · exact rowMatches_status _ _ _ _ e "Inactive"
      · rfl
    rw [archiveUpdate_cons]
    unfold filteredData at ih ⊢
    rw [List.filter_cons, List.filter_cons, hrow]
    cases hm : rowMatches toLowerCase searchTerm roleFilter systemFilter e
    · simpa using ih
    · simp only [if_true]
      rw [archiveUpdate_cons, ih]

theorem archiveUpdate_pairs (rows : List Employee) (empId : JSVal) :
    List.Forall₂
      (fun before after =>
        after.id = before.id ∧ after.name = before.name ∧ after.username = before.username
          ∧ after.email = before.email ∧ after.role = before.role
          ∧ after.system = before.system ∧ after.phone = before.phone
          ∧ (before.id = empId → after.status = "Inactive")
          ∧ (before.id ≠ empId → after = before))
      rows (archiveUpdate rows empId) := by
  induction rows with
  | nil => exact List.Forall₂.nil
  | cons e es ih =>
    rw [archiveUpdate_cons]
    refine List.Forall₂.cons ?_ ih
    by_cases h : e.id = empId <;> simp [h]

/-- Claim C21. An archived row stays visible: for every cache, id and filter state,
filtering the cache after the archive update gives the same rows as applying the
archive update to the filtered cache; the visible rows before and after the archive
have the same ids in the same order and correspond position by position, a row
differing from its earlier self in nothing but the status, which is "Inactive" for
the archived id, and not at all for another id. -/
theorem archived_row_stays_visible (toLowerCase : String → String)
    (employees : List Employee) (empId : JSVal)
    (searchTerm roleFilter systemFilter : String) :
    filteredData toLowerCase (archiveUpdate employees empId) searchTerm roleFilter systemFilter
        = archiveUpdate
            (filteredData toLowerCase employees searchTerm roleFilter systemFilter) empId
      ∧ (filteredData toLowerCase (archiveUpdate employees empId) searchTerm roleFilter
            systemFilter).map Employee.id
          = (filteredData toLowerCase employees searchTerm roleFilter systemFilter).map
              Employee.id
      ∧ List.Forall₂
          (fun before after =>
            after.id = before.id ∧ after.name = before.name
              ∧ after.username = before.username ∧ after.email = before.email
              ∧ after.role = before.role ∧ after.system = before.system
              ∧ after.phone = before.phone
              ∧ (before.id = empId → after.status = "Inactive")
              ∧ (before.id ≠ empId → after = before))
          (filteredData toLowerCase employees searchTerm roleFilter systemFilter)
          (filteredData toLowerCase (archiveUpdate employees empId) searchTerm roleFilter
            systemFilter) := by
  have hcomm := filteredData_archiveUpdate toLowerCase employees empId searchTerm roleFilter
    systemFilter
  have hpairs := archiveUpdate_pairs
    (filteredData toLowerCase employees searchTerm roleFilter systemFilter) empId
  refine ⟨hcomm, ?_, ?_⟩
  · rw [hcomm]
    have hid : ∀ rows : List Employee,
        (archiveUpdate rows empId).map Employee.id = rows.map Employee.id := by
      intro rows
      induction rows with
      | nil => rfl
      | cons e es ih =>
        rw [archiveUpdate_cons, List.map_cons, List.map_cons, ih]
        by_cases h : e.id = empId <;> simp [h]
    exact hid _
  · rw [hcomm]
    exact hpairs

/-- Instance of claim C21 on `sampleCache` with search term "ALI" and system filter
"POS": after archiving id 1 the only visible row is still the record of Alice, now
with status "Inactive". -/
theorem archived_row_stays_visible_witness :
    filteredData asciiLowerCase sampleCache "ALI" "" "POS" = [sampleAlice]
      ∧ ∃ after, filteredData asciiLowerCase (archiveUpdate sampleCache (JSVal.num 1))
            "ALI" "" "POS" = [after]
          ∧ after.status = "Inactive" ∧ after.name = sampleAlice.name := by
  have h := (archived_row_stays_visible asciiLowerCase sampleCache (JSVal.num 1)
    "ALI" "" "POS").2.2
  have hb : filteredData asciiLowerCase sampleCache "ALI" "" "POS" = [sampleAlice] := by
    decide
  have ha : filteredData asciiLowerCase (archiveUpdate sampleCache (JSVal.num 1))
      "ALI" "" "POS" = [{ sampleAlice with status := "Inactive" }] := by
    decide
  rw [hb, ha] at h
  obtain ⟨hA, -⟩ := List.forall₂_cons.1 h
  exact ⟨hb, _, ha, hA.2.2.2.2.2.2.2.1 rfl, hA.2.1⟩

/-! ## Reconciliation of the sidebar preference -/

theorem parse_stringify (b : Bool) : JSON.parse (JSON.stringify b) = some (Json.bool b) := by
  cases b <;> decide

/-- Claim C22. Preference reconciliation is idempotent and applies only on change:
for every local value and every stored boolean, one reconciliation step (storage
notification or poll tick) leaves the local value equal to the stored value; the
state is unchanged when the stored value already equals the local value, and when
the key is unset; and a second step of either kind with the same stored value
changes nothing. -/
theorem reconciliation_idempotent (sidebarCollapsed : Json) (b : Bool) :
    handleStorageChange sidebarCollapsed (some (JSON.stringify b)) = some (Json.bool b)
      ∧ intervalTick sidebarCollapsed (some (JSON.stringify b)) = some (Json.bool b)
      ∧ handleStorageChange (Json.bool b) (some (JSON.stringify b)) = some (Json.bool b)
      ∧ intervalTick (Json.bool b) (some (JSON.stringify b)) = some (Json.bool b)
      ∧ handleStorageChange sidebarCollapsed none = some sidebarCollapsed
      ∧ intervalTick sidebarCollapsed none = some sidebarCollapsed
      ∧ (handleStorageChange sidebarCollapsed (some (JSON.stringify b))).bind
            (fun v => handleStorageChange v (some (JSON.stringify b)))
          = handleStorageChange sidebarCollapsed (some (JSON.stringify b))
      ∧ (handleStorageChange sidebarCollapsed (some (JSON.stringify b))).bind
            (fun v => intervalTick v (some (JSON.stringify b)))
          = handleStorageChange sidebarCollapsed (some (JSON.stringify b))
      ∧ (intervalTick sidebarCollapsed (some (JSON.stringify b))).bind
            (fun v => handleStorageChange v (some (JSON.stringify b)))
          = intervalTick sidebarCollapsed (some (JSON.stringify b))
      ∧ (intervalTick sidebarCollapsed (some (JSON.stringify b))).bind
            (fun v => intervalTick v (some (JSON.stringify b)))
          = intervalTick sidebarCollapsed (some (JSON.stringify b)) := by
  have hs : ∀ v : Json, handleStorageChange v (some (JSON.stringify b)) = some (Json.bool b) := by
    intro v
    simp [handleStorageChange, parse_stringify]
  have ht : ∀ v : Json, intervalTick v (some (JSON.stringify b)) = some (Json.bool b) := by
    intro v
    simp only [intervalTick, parse_stringify]
    cases v <;> simp [Json.strictEq]
    rename_i c
    intro h
    exact h.symm
  refine ⟨hs _, ht _, hs _, ht _, rfl, rfl, ?_, ?_, ?_, ?_⟩ <;>
    simp [hs, ht]

/-! ## Role options -/

/-- Counterexample to claim C23. The role filter, the create form and the edit form
all offer the value "super admin", written with a space, which is not a member of
the enumeration, and none of them offers the member "super_admin". -/
theorem roleOptions_counterexample :
    ("super admin" ∈ roleFilterOptions ∧ "super admin" ∈ AddEmployeeModal.roleOptions
        ∧ "super admin" ∈ EditEmployeeModal.roleOptions)
      ∧ "super admin" ≠ "" ∧ "super admin" ∉ roleEnumeration
      ∧ "super_admin" ∈ roleEnumeration
      ∧ "super_admin" ∉ roleFilterOptions ∧ "super_admin" ∉ AddEmployeeModal.roleOptions
      ∧ "super_admin" ∉ EditEmployeeModal.roleOptions := by
  decide

/-- Claim C23, amended. The role filter, the create form and the edit form offer the
same values; a non-empty value is selectable if and only if it is one of admin,
manager, staff, rider, cashier, user and "super admin" (written with a space). Hence
every selectable non-empty value other than "super admin" is a member of the
enumeration, and every member of the enumeration other than super_admin is
selectable. -/
theorem roleOptions_spec (role : String) :
    AddEmployeeModal.roleOptions = roleFilterOptions
      ∧ EditEmployeeModal.roleOptions = roleFilterOptions
      ∧ (role ∈ roleFilterOptions ∧ role ≠ ""
          ↔ role ∈ ["admin", "manager", "staff", "rider", "cashier", "user", "super admin"])
      ∧ (role ∈ roleFilterOptions → role ≠ "" → role ≠ "super admin" →
          role ∈ roleEnumeration)
      ∧ (role ∈ roleEnumeration → role ≠ "super_admin" → role ∈ roleFilterOptions) := by
  refine ⟨rfl, rfl, ?_, ?_, ?_⟩
  · simp only [roleFilterOptions, List.mem_cons, List.mem_singleton, List.not_mem_nil,
      or_false]
    constructor
    · rintro ⟨h | h | h | h | h | h | h | h, hne⟩
      · exact absurd h hne
      all_goals simp [h]
    · rintro (h | h | h | h | h | h | h) <;> subst h <;> decide
  · simp only [roleFilterOptions, roleEnumeration, List.mem_cons, List.mem_singleton,
      List.not_mem_nil, or_false]
    rintro (h | h | h | h | h | h | h | h) hne hsa
    · exact absurd h hne
    · simp [h]
    · simp [h]
    · simp [h]
    · simp [h]
    · simp [h]
    · simp [h]
    · exact absurd h hsa
  · simp only [roleFilterOptions, roleEnumeration, List.mem_cons, List.mem_singleton,
      List.not_mem_nil, or_false]
    rintro (h | h | h | h | h | h | h) hsa
    · simp [h]
    · simp [h]
    · simp [h]
    · simp [h]
    · simp [h]
    · simp [h]
    · exact absurd h hsa

/-- Instance of the amended claim C23: the role "cashier" is selectable and is a
member of the enumeration. -/
theorem roleOptions_spec_witness :
    "cashier" ∈ roleFilterOptions ∧ "cashier" ∈ roleEnumeration :=
  ⟨(roleOptions_spec "cashier").2.2.2.2 (by decide) (by decide),
   (roleOptions_spec "cashier").2.2.2.1 (by decide) (by decide) (by decide)⟩

/-! ## Only well-formed secrets are transmitted -/

/-- Claim C24. Only well-formed secrets are transmitted: for every form that passes
create-flow validation, every password field of the create payload has at least 12
characters and equals the form's confirmation, and every pin field of it is exactly
four decimal digits and comes with userRole "manager" and system "POS"; likewise for
every form that passes edit-flow validation and the update payload. -/
theorem secrets_well_formed (formData : FormData) :
    ((AddEmployeeModal.validateForm formData).isValid = true →
        (∀ v, ("password", v) ∈ AddEmployeeModal.formDataPayload formData →
            12 ≤ jsLength v ∧ v = formData.confirmPassword)
          ∧ (∀ v, ("pin", v) ∈ AddEmployeeModal.formDataPayload formData →
              FourDigits v
                ∧ ("userRole", "manager") ∈ AddEmployeeModal.formDataPayload formData
                ∧ ("system", "POS") ∈ AddEmployeeModal.formDataPayload formData))
      ∧ ((EditEmployeeModal.validateForm formData).isValid = true →
          (∀ v, ("password", v) ∈ EditEmployeeModal.formDataPayload formData →
              12 ≤ jsLength v ∧ v = formData.confirmPassword)
            ∧ (∀ v, ("pin", v) ∈ EditEmployeeModal.formDataPayload formData →
                FourDigits v
                  ∧ ("userRole", "manager") ∈ EditEmployeeModal.formDataPayload formData
                  ∧ ("system", "POS") ∈ EditEmployeeModal.formDataPayload formData)) := by
  constructor
  · intro hv
    obtain ⟨⟨-, hlen, heq⟩, hpin⟩ := (create_isValid_iff formData).1 hv
    constructor
    · intro v hmem
      have hv2 : v = formData.password := by
        by_cases hm : isPosManager formData = true <;>
          simpa [AddEmployeeModal.formDataPayload, hm] using hmem
      rw [hv2]
      exact ⟨hlen, heq⟩
    · intro v hmem
      by_cases hm : isPosManager formData = true
      · have hv2 : v = formData.pin := by
          simpa [AddEmployeeModal.formDataPayload, hm] using hmem
        obtain ⟨hr, hs⟩ := (isPosManager_iff formData).1 hm
        rw [hv2]
        refine ⟨hpin hm, ?_, ?_⟩
        · simp [AddEmployeeModal.formDataPayload, hr]
        · simp [AddEmployeeModal.formDataPayload, hs]
      · exfalso
        simp [AddEmployeeModal.formDataPayload, hm] at hmem
  · intro hv
    obtain ⟨hpw, hpin⟩ := (edit_isValid_iff formData).1 hv
    constructor
    · intro v hmem
      by_cases hp : formData.password = ""
      · exfalso
        by_cases hc : isPosManager formData = true ∧ formData.pin ≠ "" <;>
          simp [EditEmployeeModal.formDataPayload, hp, hc] at hmem
      · have hv2 : v = formData.password := by
          by_cases hc : isPosManager formData = true ∧ formData.pin ≠ "" <;>
            simpa [EditEmployeeModal.formDataPayload, hp, hc] using hmem
        rw [hv2]
        exact hpw hp
    · intro v hmem
      by_cases hc : isPosManager formData = true ∧ formData.pin ≠ ""
      · have hv2 : v = formData.pin := by
          by_cases hp : formData.password = "" <;>
            simpa [EditEmployeeModal.formDataPayload, hp, hc] using hmem
        obtain ⟨hr, hs⟩ := (isPosManager_iff formData).1 hc.1
        rw [hv2]
        refine ⟨hpin hc.1 hc.2, ?_, ?_⟩
        · simp [EditEmployeeModal.formDataPayload, hr]
        · simp [EditEmployeeModal.formDataPayload, hs]
      · exfalso
        by_cases hp : formData.password = "" <;>
          simp [EditEmployeeModal.formDataPayload, hp, hc] at hmem

/-- Instance of claim C24 on `validForm` (password "longenough12", pin "1234", POS
manager), which passes both validations: the password of the create payload has at
least 12 characters and the pin of the update payload is four digits. -/
theorem secrets_well_formed_witness :
    (AddEmployeeModal.validateForm validForm).isValid = true
      ∧ (EditEmployeeModal.validateForm validForm).isValid = true
      ∧ 12 ≤ jsLength "longenough12" ∧ FourDigits "1234" :=
  have h := secrets_well_formed validForm
  ⟨by decide, by decide,
   ((h.1 (by decide)).1 "longenough12" (by decide)).1,
   ((h.2 (by decide)).2 "1234" (by decide)).1⟩

end Directory
